import Mathlib

/-!
Verification development for the function-to-node compilation core of the
hamilton repository (src/hamilton/function_modifiers.py).  Python values,
classes and dictionaries are shallowly embedded; each decorator's methods are
translated into executable Lean definitions, and the behavioural claims about
them are proved below the definitions.
-/

set_option maxHeartbeats 1000000

namespace Hamilton

/-- An atomic Python value as it appears in configurations, tag maps,
parameter bindings and dataframe cells.  `pyTuple2` models the
`(name, docstring)` string pairs the decorators use. -/
inductive PyVal where
  | pyNone
  | pyBool (b : Bool)
  | pyInt (n : Int)
  | pyStrV (s : String)
  | pyTuple2 (a b : String)
deriving DecidableEq

/-- A pandas column key: either a plain string, or a `(name, doc)` tuple
(which `extract_columns` accepts in its `columns` argument and which can end
up as a literal dataframe key in `df_generator`). -/
inductive ColKey where
  | str (s : String)
  | pair (a b : String)
deriving DecidableEq

/-- The Python exception kinds raised by the code under analysis.
`invalidDecorator` is `InvalidDecoratorException` from function_modifiers.py;
the rest are builtin exception classes. -/
inductive PyError where
  | invalidDecorator (msg : String)
  | valueError (msg : String)
  | typeError (msg : String)
  | keyError (key : String)
  | indexError (msg : String)
  | attributeError (msg : String)
deriving DecidableEq

/-- True exactly for the `InvalidDecoratorException` error kind. -/
def PyError.isInvalidDecoratorKind : PyError → Bool
  | PyError.invalidDecorator _ => true
  | _ => false

/-- A pandas dataframe, abstracted to its ordered column map; a cell of the
column map is the whole column's payload. -/
abbrev Frame := List (ColKey × PyVal)

/-- A Python object flowing through node implementations: either an atomic
value or a dataframe. -/
inductive PyObj where
  | val (v : PyVal)
  | frame (f : Frame)
deriving DecidableEq

/-! ### Python dict semantics over association lists

Python dicts preserve insertion order; updating an existing key keeps its
position, inserting a new key appends.  These helpers reproduce exactly that
behaviour on ordered association lists. -/

/-- Dictionary lookup (`d[k]` / `d.get(k)`), first matching key wins. -/
def dget {κ α : Type} [DecidableEq κ] : List (κ × α) → κ → Option α
  | [], _ => Option.none
  | p :: rest, k => if p.1 = k then some p.2 else dget rest k

/-- Dictionary membership (`k in d`). -/
def dmem {κ α : Type} [DecidableEq κ] (d : List (κ × α)) (k : κ) : Bool :=
  (dget d k).isSome

/-- Dictionary write (`d[k] = v`): overwrite in place if present, else
append. -/
def dset {κ α : Type} [DecidableEq κ] : List (κ × α) → κ → α → List (κ × α)
  | [], k, v => [(k, v)]
  | p :: rest, k, v => if p.1 = k then (k, v) :: rest else p :: dset rest k v

/-- Remove a key from a dictionary (the removal part of `d.pop(k)`). -/
def dremove {κ α : Type} [DecidableEq κ] : List (κ × α) → κ → List (κ × α)
  | [], _ => []
  | p :: rest, k => if p.1 = k then dremove rest k else p :: dremove rest k

/-- Python `d.pop(k)`: the value and the shrunken dict, or `none` for the
`KeyError` case. -/
def dpop {κ α : Type} [DecidableEq κ] (d : List (κ × α)) (k : κ) :
    Option (α × List (κ × α)) :=
  match dget d k with
  | some v => some (v, dremove d k)
  | Option.none => Option.none

/-- The key list of a dictionary. -/
def dkeys {κ α : Type} (d : List (κ × α)) : List κ := d.map (fun p => p.1)

/-- Python `a.copy()` followed by `a.update(b)`: every binding of `b` is
written into `a` in order. -/
def dupdate {κ α : Type} [DecidableEq κ] (a b : List (κ × α)) : List (κ × α) :=
  b.foldl (fun acc p => dset acc p.1 p.2) a

/-- Python `','.join(l)`. -/
def joinComma : List String → String
  | [] => ""
  | [x] => x
  | x :: y :: rest => x ++ "," ++ joinComma (y :: rest)

/-- Python `s.endswith('__')`. -/
def endsWithDunder (s : String) : Bool :=
  decide (s.data.reverse.take 2 = ['_', '_'])

/-! ### Python classes and `issubclass` -/

/-- The Python type expressions occurring as signature annotations in the
source: the pandas/builtin classes it compares against, `inspect`'s empty
annotation, subscripted `typing` generics (which are *not* classes), and
user-defined classes with a base. -/
inductive PyType where
  | dataframe
  | series
  | pydict
  | pyint
  | pystr
  | pyfloat
  | sigEmpty
  | genericDict (k v : PyType)
  | genericList (t : PyType)
  | classNamed (nm : String) (base : PyType)
deriving DecidableEq

/-- Whether a type expression is an actual class (subscripted `typing`
generics such as `typing.Dict[str, str]` are not). -/
def PyType.isClass : PyType → Bool
  | PyType.genericDict _ _ => false
  | PyType.genericList _ => false
  | _ => true

/-- The subclass relation between classes: reflexive, and walking up the
`classNamed` base chain. -/
def subclassB : PyType → PyType → Bool
  | PyType.classNamed nm base, b =>
    (PyType.classNamed nm base == b) || subclassB base b
  | a, b => a == b

/-- A printable rendering of a type expression for error messages. -/
def pyTypeRepr : PyType → String
  | PyType.dataframe => "<class pandas.DataFrame>"
  | PyType.series => "<class pandas.Series>"
  | PyType.pydict => "<class dict>"
  | PyType.pyint => "<class int>"
  | PyType.pystr => "<class str>"
  | PyType.pyfloat => "<class float>"
  | PyType.sigEmpty => "<class inspect.empty>"
  | PyType.genericDict k v =>
    "typing.Dict[" ++ pyTypeRepr k ++ ", " ++ pyTypeRepr v ++ "]"
  | PyType.genericList t => "typing.List[" ++ pyTypeRepr t ++ "]"
  | PyType.classNamed nm _ => "<class " ++ nm ++ ">"

/-- Python `issubclass(a, b)`: raises `TypeError` when either argument is not
a class (e.g. a subscripted generic), otherwise decides the subclass
relation. -/
def issubclass (a b : PyType) : Except PyError Bool :=
  if a.isClass = false then
    Except.error (PyError.typeError "issubclass() arg 1 must be a class")
  else if b.isClass = false then
    Except.error
      (PyError.typeError "issubclass() arg 2 must be a class or tuple of classes")
  else Except.ok (subclassB a b)

/-- A printable rendering of an atomic value for error messages. -/
def pyValRepr : PyVal → String
  | PyVal.pyNone => "None"
  | PyVal.pyBool true => "True"
  | PyVal.pyBool false => "False"
  | PyVal.pyInt n => toString n
  | PyVal.pyStrV s => s
  | PyVal.pyTuple2 a b => "(" ++ a ++ ", " ++ b ++ ")"

/-! ### Python functions -/

/-- The `inspect.Parameter.kind` values relevant to the source. -/
inductive ParamKind where
  | positionalOrKeyword
  | varPositional
  | varKeyword
  | keywordOnly
deriving DecidableEq

/-- One declared parameter of a Python function. -/
structure PyParam where
  name : String
  kind : ParamKind
  ann : PyType
deriving DecidableEq

/-- A statement of a function body, as far as bytecode emptiness is
concerned: a no-op or real code. -/
inductive Stmt where
  | pass
  | other (code : String)
deriving DecidableEq

/-- A Python function definition: name, docstring, ordered signature, return
annotation and body. -/
structure PyFunction where
  name : String
  doc : Option String
  params : List PyParam
  retAnn : PyType
  body : List Stmt
deriving DecidableEq

/-- The effectful content of a compiled body (`fn.__code__.co_code` up to the
bytecode equivalences the interpreter applies): no-ops compile away. -/
def coCode (fn : PyFunction) : List Stmt :=
  fn.body.filter (fun s => s != Stmt.pass)

/-- The reference empty function the source compares bytecode against. -/
def emptyFunction : PyFunction :=
  { name := "_empty_function", doc := Option.none, params := [],
    retAnn := PyType.sigEmpty, body := [Stmt.pass] }

/-- The reference empty function with a docstring. -/
def emptyFunctionWithDocstring : PyFunction :=
  { name := "_empty_function_with_docstring",
    doc := some "Docstring for an empty function", params := [],
    retAnn := PyType.sigEmpty, body := [Stmt.pass] }

/-- `ensure_function_empty`: the function's code object must coincide with
one of the two reference empty functions. -/
def ensure_function_empty (fn : PyFunction) : Except PyError Unit :=
  if coCode fn == coCode emptyFunction
      || coCode fn == coCode emptyFunctionWithDocstring then
    Except.ok ()
  else
    Except.error (PyError.invalidDecorator
      ("Function: " ++ fn.name ++
       " is not empty. Must have only one line that consists of \"pass\""))

/-! ### Python `str.format` for keyword templates

`parameterized_inputs` formats docstrings with `doc.format(...)`.  The model
is a single left-to-right scan: doubled braces are literals, a lone closing
brace or an unterminated field is a `ValueError`, an empty or numeric field
is positional (an `IndexError` when no positional arguments are given, as in
the source's call sites), and a named field is looked up in the keyword
mapping (`KeyError` when absent). -/

/-- The left brace character. -/
def lbraceChar : Char := Char.ofNat 123

/-- The right brace character. -/
def rbraceChar : Char := Char.ofNat 125

/-- State of the `str.format` scanner. -/
inductive FmtState where
  | norm
  | sawL
  | sawR
  | field (acc : List Char)

/-- Whether a field name is positional (empty or all digits). -/
def isPositionalName (cs : List Char) : Bool :=
  cs.all Char.isDigit

/-- The `str.format` scanner.  `subs` is the keyword-argument mapping. -/
def formatGo (subs : List (String × String)) : FmtState → List Char → Except PyError String
  | FmtState.norm, [] => Except.ok ""
  | FmtState.sawL, [] =>
    Except.error (PyError.valueError "Single left brace encountered in format string")
  | FmtState.sawR, [] =>
    Except.error (PyError.valueError "Single right brace encountered in format string")
  | FmtState.field _, [] =>
    Except.error (PyError.valueError "expected right brace before end of string")
  | FmtState.norm, c :: rest =>
    if c = lbraceChar then formatGo subs FmtState.sawL rest
    else if c = rbraceChar then formatGo subs FmtState.sawR rest
    else (formatGo subs FmtState.norm rest).map (fun s => String.mk [c] ++ s)
  | FmtState.sawL, c :: rest =>
    if c = lbraceChar then
      (formatGo subs FmtState.norm rest).map (fun s => String.mk [lbraceChar] ++ s)
    else if c = rbraceChar then
      Except.error (PyError.indexError "Replacement index out of range")
    else formatGo subs (FmtState.field [c]) rest
  | FmtState.sawR, c :: rest =>
    if c = rbraceChar then
      (formatGo subs FmtState.norm rest).map (fun s => String.mk [rbraceChar] ++ s)
    else Except.error (PyError.valueError "Single right brace encountered in format string")
  | FmtState.field acc, c :: rest =>
    if c = rbraceChar then
      if isPositionalName acc.reverse then
        Except.error (PyError.indexError "Replacement index out of range")
      else
        match dget subs (String.mk acc.reverse) with
        | some v => (formatGo subs FmtState.norm rest).map (fun s => v ++ s)
        | Option.none => Except.error (PyError.keyError (String.mk acc.reverse))
    else formatGo subs (FmtState.field (c :: acc)) rest

/-- Python `template.format(**subs)`. -/
def pyFormat (template : String) (subs : List (String × String)) : Except PyError String :=
  formatGo subs FmtState.norm template.data

/-- `format_doc_string`: formats a docstring with the reserved `output_name`
keyword plus the parameter mapping.  A missing docstring is the Python
`None.format` AttributeError; a mapping that itself binds `output_name`
collides with the named argument (TypeError). -/
def format_doc_string (doc : Option String) (output_name : String)
    (params : List (String × String)) : Except PyError String :=
  match doc with
  | Option.none =>
    Except.error (PyError.attributeError "NoneType object has no attribute format")
  | some d =>
    if dmem params "output_name" then
      Except.error
        (PyError.typeError "format_doc_string got multiple values for argument output_name")
    else pyFormat d (("output_name", output_name) :: params)

/-! ### Nodes -/

/-- The named-argument record an implementation is invoked with. -/
abbrev Kwargs := List (String × PyObj)

/-- A node implementation: named inputs in, value out, possibly raising. -/
abbrev Impl := Kwargs → Except PyError PyObj

/-- Modelled from the spec: the `Node` value object of hamilton/node.py
(which is not under src/) — name, output type, documentation string,
implementation reference, input-dependency map (name -> required type) and
tag map, per spec section 3.  The real class stores each input as a
(type, dependency-kind) pair and, when a constructor call omits
`input_types`, re-derives them from the callable's signature (which
`functools.wraps` preserves); the model keeps the type component and makes
that defaulting explicit at the call sites. -/
structure Node where
  name : String
  typ : PyType
  documentation : String
  callable : Impl
  node_source : Option String := Option.none
  input_types : List (String × PyType) := []
  tags : List (String × PyVal) := []

/-- `functools.partial(f, **{k: v})`: calling the partial with keyword
arguments calls `f` on the dict literal `{k: v}` updated with the call-time
keywords (call-time bindings win). -/
def partialKw (f : Impl) (k : String) (v : PyObj) : Impl :=
  fun kwargs => f (dupdate [(k, v)] kwargs)

/-! ### The `parametrized` expander -/

/-- The `parametrized` decorator: a target parameter and a mapping of
(new node name, documentation) to the fixed value bound to that parameter. -/
structure parametrized where
  parameter : String
  assigned_output : List ((String × String) × PyObj)

/-- `parametrized.validate`: the target parameter must exist in the
function's signature. -/
def parametrized.validate (p : parametrized) (fn : PyFunction) : Except PyError Unit :=
  if (fn.params.map PyParam.name).contains p.parameter then Except.ok ()
  else
    Except.error (PyError.invalidDecorator
      ("Annotation is invalid -- no such parameter " ++ p.parameter ++
       " in function " ++ fn.name))

/-- `parametrized.expand_node`: one node per assigned-output entry; the new
implementation is the original partially applied at the fixed value, and the
target parameter is dropped from the input-dependency map. -/
def parametrized.expand_node (p : parametrized) (node_ : Node) : List Node :=
  p.assigned_output.map (fun e =>
    { name := e.1.1
      typ := node_.typ
      documentation := e.1.2
      callable := partialKw node_.callable p.parameter e.2
      input_types := node_.input_types.filter (fun q => q.1 != p.parameter)
      tags := node_.tags })

/-! ### Dependency renaming (`parametrized_input` / `parameterized_inputs`)

Both expanders rewrite a dict by a sequence of `d[dst] = d.pop(src)` moves —
over the input-type map at expansion time and over the kwargs at invocation
time (with source and destination swapped). -/

/-- Apply `d[dst] = d.pop(src)` for each `(src, dst)` pair in order; a
missing source key is the Python `KeyError`. -/
def dmove {α : Type} : List (String × α) → List (String × String) → Except PyError (List (String × α))
  | d, [] => Except.ok d
  | d, pr :: rest =>
    match dpop d pr.1 with
    | some (v, d') => dmove (dset d' pr.2 v) rest
    | Option.none => Except.error (PyError.keyError pr.1)

/-- The deprecated singular `parametrized_input` decorator: one target
parameter, and a mapping of substitute input column to
(new node name, documentation). -/
structure parametrized_input where
  parameter : String
  assigned_output : List (String × (String × String))

/-- `parametrized_input.validate`: the target parameter must exist in the
function's signature. -/
def parametrized_input.validate (p : parametrized_input) (fn : PyFunction) : Except PyError Unit :=
  if (fn.params.map PyParam.name).contains p.parameter then Except.ok ()
  else
    Except.error (PyError.invalidDecorator
      ("Annotation is invalid -- no such parameter " ++ p.parameter ++
       " in function " ++ fn.name))

/-- The per-entry wrapper `new_fn` of `parametrized_input.expand_node`: at
invocation it moves the incoming substitute argument back under the target
parameter name and calls the original implementation. -/
def parametrized_input.new_fn (pin : parametrized_input) (node_ : Node)
    (input_column : String) : Impl :=
  fun kwargs =>
    match dmove kwargs [(input_column, pin.parameter)] with
    | Except.ok kwargs' => node_.callable kwargs'
    | Except.error e => Except.error e

/-- The expansion loop of `parametrized_input.expand_node`. -/
def parametrized_input.expandGo (pin : parametrized_input) (node_ : Node) :
    List (String × (String × String)) → Except PyError (List Node)
  | [] => Except.ok []
  | e :: rest => do
    let specific_inputs ← dmove node_.input_types [(pin.parameter, e.1)]
    let ns ← parametrized_input.expandGo pin node_ rest
    Except.ok
      ({ name := e.2.1, typ := node_.typ, documentation := e.2.2,
         callable := parametrized_input.new_fn pin node_ e.1,
         input_types := specific_inputs, tags := node_.tags } :: ns)

/-- `parametrized_input.expand_node`: one node per mapping entry, renaming
the target parameter's dependency to the substitute input column. -/
def parametrized_input.expand_node (pin : parametrized_input) (node_ : Node) :
    Except PyError (List Node) :=
  parametrized_input.expandGo pin node_ pin.assigned_output

/-- The plural `parameterized_inputs` decorator: output name to
(target parameter -> substitute dependency) mapping. -/
structure parameterized_inputs where
  parametrization : List (String × List (String × String))

/-- The reserved docstring-template keyword. -/
def parameterized_inputs.RESERVED_KWARG : String := "output_name"

/-- `parameterized_inputs.__init__`: rejects an empty parametrization and
any entry with an empty mapping — with `ValueError`, not
`InvalidDecoratorException`. -/
def parameterized_inputs.init (parameterization : List (String × List (String × String))) :
    Except PyError parameterized_inputs :=
  if parameterization.isEmpty then
    Except.error (PyError.valueError "Cannot pass empty/None dictionary to parameterized_inputs")
  else
    match parameterization.find? (fun e => e.2.isEmpty) with
    | some e =>
      Except.error (PyError.valueError
        ("Error, " ++ e.1 ++ " has a none/empty dictionary mapping. Please fill it."))
    | Option.none => Except.ok ⟨parameterization⟩

/-- The per-entry wrapper `new_fn` of `parameterized_inputs.expand_node`:
for each (target, substitute) pair it executes
`kwargs[target] = kwargs.pop(substitute)`, then calls the original. -/
def parameterized_inputs.new_fn (node_ : Node) (mapping : List (String × String)) : Impl :=
  fun kwargs =>
    match dmove kwargs (mapping.map (fun pr => (pr.2, pr.1))) with
    | Except.ok kwargs' => node_.callable kwargs'
    | Except.error e => Except.error e

/-- The expansion loop of `parameterized_inputs.expand_node`: formats the
docstring template, renames the dependencies, and emits the node. -/
def parameterized_inputs.expandGo (node_ : Node) :
    List (String × List (String × String)) → Except PyError (List Node)
  | [] => Except.ok []
  | e :: rest => do
    let node_description ← format_doc_string (some node_.documentation) e.1 e.2
    let specific_inputs ← dmove node_.input_types e.2
    let ns ← parameterized_inputs.expandGo node_ rest
    Except.ok
      ({ name := e.1, typ := node_.typ, documentation := node_description,
         callable := parameterized_inputs.new_fn node_ e.2,
         input_types := specific_inputs, tags := node_.tags } :: ns)

/-- `parameterized_inputs.expand_node`. -/
def parameterized_inputs.expand_node (pz : parameterized_inputs) (node_ : Node) :
    Except PyError (List Node) :=
  parameterized_inputs.expandGo node_ pz.parametrization

/-- The docstring-template dry run of `parameterized_inputs.validate`. -/
def parameterized_inputs.formatCheckGo (doc : Option String) :
    List (String × List (String × String)) → Except PyError Unit
  | [] => Except.ok ()
  | e :: rest => do
    let _ ← format_doc_string doc e.1 e.2
    parameterized_inputs.formatCheckGo doc rest

/-- The target parameters referenced by the parametrization that are not
declared by the function (`missing_params`, in traversal order). -/
def parameterized_inputs.missingParams (pz : parameterized_inputs) (fn : PyFunction) :
    List String :=
  pz.parametrization.foldl
    (fun acc e =>
      acc ++ (e.2.filter
        (fun pr => !(fn.params.map PyParam.name).contains pr.1)).map (fun pr => pr.1))
    []

/-- The reserved-keyword and missing-parameter checks of
`parameterized_inputs.validate` (run after the docstring dry run). -/
def parameterized_inputs.postFormatChecks (pz : parameterized_inputs) (fn : PyFunction) :
    Except PyError Unit :=
  if (fn.params.map PyParam.name).contains parameterized_inputs.RESERVED_KWARG then
    Except.error (PyError.invalidDecorator
      ("Error function " ++ fn.name ++
       " cannot have output_name as a parameter it is reserved."))
  else if (parameterized_inputs.missingParams pz fn).isEmpty then Except.ok ()
  else
    Except.error (PyError.invalidDecorator
      ("Annotation is invalid -- No such parameter(s) " ++
       joinComma (parameterized_inputs.missingParams pz fn) ++
       " in function " ++ fn.name ++ "."))

/-- `parameterized_inputs.validate`: dry-runs the docstring templating
(turning a `KeyError` into `InvalidDecoratorException` and letting other
formatting failures propagate), rejects functions that declare the reserved
keyword as a parameter, and rejects mappings whose target parameters are not
in the signature. -/
def parameterized_inputs.validate (pz : parameterized_inputs) (fn : PyFunction) :
    Except PyError Unit := do
  (match parameterized_inputs.formatCheckGo fn.doc pz.parametrization with
   | Except.error (PyError.keyError _) =>
     Except.error (PyError.invalidDecorator
       ("Function docstring templating is incorrect. Please fix up the docstring " ++
        fn.name ++ "."))
   | Except.error e => Except.error e
   | Except.ok () => Except.ok ())
  parameterized_inputs.postFormatChecks pz fn

/-! ### `extract_columns` -/

/-- The `extract_columns` decorator: requested columns (plain names or
(name, doc) tuples) and an optional fill default. -/
structure extract_columns where
  columns : List ColKey
  fill_with : Option PyVal

/-- `extract_columns.__init__`: rejects an empty column list. -/
def extract_columns.init (columns : List ColKey) (fill_with : Option PyVal) :
    Except PyError extract_columns :=
  if columns.isEmpty then
    Except.error (PyError.invalidDecorator
      "Error empty arguments passed to extract_columns decorator.")
  else Except.ok ⟨columns, fill_with⟩

/-- `extract_columns.validate`: `issubclass(return annotation, DataFrame)`
must hold (and `issubclass` itself raises `TypeError` on a non-class
annotation). -/
def extract_columns.validate (fn : PyFunction) : Except PyError Unit := do
  let b ← issubclass fn.retAnn PyType.dataframe
  if b then Except.ok ()
  else
    Except.error (PyError.invalidDecorator
      ("For extracting columns, output type must be pandas dataframe, not: " ++
       pyTypeRepr fn.retAnn))

/-- The wrapped base implementation `df_generator`: runs the original
callable and, when a fill default is configured, writes the default under
each requested column spec that is absent — note the raw spec (possibly a
(name, doc) tuple) is used as the dataframe key. -/
def extract_columns.df_generator (ec : extract_columns) (fn : Impl) : Impl :=
  fun kwargs => do
    let df_generated ← fn kwargs
    match ec.fill_with with
    | Option.none => Except.ok df_generated
    | some fill =>
      match df_generated with
      | PyObj.frame f =>
        Except.ok (PyObj.frame
          (ec.columns.foldl (fun acc col => if dmem acc col then acc else dset acc col fill) f))
      | PyObj.val _ => Except.error (PyError.typeError "argument of type is not iterable")

/-- A rendering of the column keys of a frame (`str(df.columns)`). -/
def frameColsRepr (f : Frame) : String :=
  "Index([" ++
    joinComma (f.map (fun p =>
      match p.1 with
      | ColKey.str s => s
      | ColKey.pair a b => "(" ++ a ++ ", " ++ b ++ ")")) ++
  "])"

/-- The message of the per-column extractor's missing-column error: it names
the requested column and the columns the base node produced. -/
def extract_columns.no_such_column_msg (column node_name : String) (f : Frame) : String :=
  "No such column: " ++ column ++ " produced by " ++ node_name ++
  ". It only produced " ++ frameColsRepr f

/-- The per-column `extractor_fn`: reads the base node's frame from the
kwargs and extracts the single named column, raising
`InvalidDecoratorException` when it is absent. -/
def extract_columns.extractor_fn (column node_name : String) : Impl :=
  fun kwargs =>
    match dget kwargs node_name with
    | Option.none => Except.error (PyError.keyError node_name)
    | some (PyObj.val _) =>
      Except.error (PyError.typeError "argument of type is not iterable")
    | some (PyObj.frame df) =>
      match dget df (ColKey.str column) with
      | some v => Except.ok (PyObj.val v)
      | Option.none =>
        Except.error (PyError.invalidDecorator
          (extract_columns.no_such_column_msg column node_name df))

/-- The plain column name of a column spec (tuples expand to their first
component, as in the extractor loop). -/
def ColKey.columnName : ColKey → String
  | ColKey.str s => s
  | ColKey.pair a _ => a

/-- `extract_columns.expand_node`: the wrapped dataframe-generator node under
the original name, plus one extractor node per requested column, each
depending solely on the base node's output. -/
def extract_columns.expand_node (ec : extract_columns) (node_ : Node) : List Node :=
  { name := node_.name, typ := PyType.dataframe, documentation := node_.documentation,
    callable := extract_columns.df_generator ec node_.callable,
    input_types := node_.input_types, tags := node_.tags } ::
  ec.columns.map (fun c =>
    { name := c.columnName
      typ := PyType.series
      documentation := match c with
        | ColKey.str _ => node_.documentation
        | ColKey.pair _ d => d
      callable := extract_columns.extractor_fn c.columnName node_.name
      input_types := [(node_.name, PyType.dataframe)]
      tags := node_.tags })

/-! ### `extract_fields` -/

/-- A value passed as a field annotation to `extract_fields`:
either an actual type or some other (invalid) value. -/
inductive FieldAnn where
  | ty (t : PyType)
  | notAType (v : PyVal)
deriving DecidableEq

/-- The `extract_fields` decorator. -/
structure extract_fields where
  fields : List (String × FieldAnn)
  fill_with : Option PyVal

/-- The per-field error messages the `extract_fields` constructor collects
(in field order, one per field whose annotation is not a type). -/
def extract_fields.fieldErrors : List (String × FieldAnn) → List String
  | [] => []
  | e :: rest =>
    match e.2 with
    | FieldAnn.ty _ => extract_fields.fieldErrors rest
    | FieldAnn.notAType v =>
      (e.1 ++ " does not declare a type. Instead it passes " ++ pyValRepr v ++ ".") ::
        extract_fields.fieldErrors rest

/-- `extract_fields.__init__`: rejects an empty field dict and collects an
error for every field whose annotation is not a type. -/
def extract_fields.init (fields : List (String × FieldAnn)) (fill_with : Option PyVal) :
    Except PyError extract_fields :=
  if fields.isEmpty then
    Except.error (PyError.invalidDecorator
      "Error an empty dict, or no dict, passed to extract_fields decorator.")
  else
    if (extract_fields.fieldErrors fields).isEmpty then Except.ok ⟨fields, fill_with⟩
    else
      Except.error (PyError.invalidDecorator
        ("Error, found these [" ++ joinComma (extract_fields.fieldErrors fields) ++
         "]. Please pass in a dict of string to types. "))

/-- Whether a return annotation is dictionary-like in the sense of
`extract_fields.validate`: `dict` itself, or a generic whose origin is
`dict`. -/
def isDictLike : PyType → Bool
  | PyType.genericDict _ _ => true
  | PyType.pydict => true
  | _ => false

/-- `extract_fields.validate`: the return annotation must be `dict` itself or
a generic whose origin is `dict` (`typing.Dict[...]`); anything else fails
with the invalid-decorator error. -/
def extract_fields.validate (fn : PyFunction) : Except PyError Unit :=
  match fn.retAnn with
  | PyType.genericDict _ _ => Except.ok ()
  | PyType.pydict => Except.ok ()
  | t =>
    Except.error (PyError.invalidDecorator
      ("For extracting fields, output type must be a dict or typing.Dict, not: " ++
       pyTypeRepr t))

/-! ### `does` and `dynamic_transform` -/

/-- The `does` decorator: the replacement implementation's signature. -/
structure does where
  replacing_function : PyFunction

/-- `does.ensure_output_types_match`: the replacement's declared return type
must be a subclass of (or equal to) the original's. -/
def does.ensure_output_types_match (fn todo : PyFunction) : Except PyError Unit := do
  let b ← issubclass todo.retAnn fn.retAnn
  if b then Except.ok ()
  else
    Except.error (PyError.invalidDecorator
      ("Output types: " ++ pyTypeRepr fn.retAnn ++ " and " ++ pyTypeRepr todo.retAnn ++
       " are not compatible"))

/-- `does.ensure_function_kwarg_only`: the replacement must take exactly one
parameter and it must be `**kwargs`.  A zero-parameter function fails the
source's tuple unpacking with a `ValueError`, not the invalid-decorator
error. -/
def does.ensure_function_kwarg_only (fn : PyFunction) : Except PyError Unit :=
  if fn.params.length > 1 then
    Except.error (PyError.invalidDecorator
      "Too many parameters -- for now @does can only use **kwarg functions.")
  else
    match fn.params with
    | [] => Except.error (PyError.valueError "not enough values to unpack (expected 1, got 0)")
    | p :: _ =>
      if p.kind = ParamKind.varKeyword then Except.ok ()
      else
        Except.error (PyError.invalidDecorator
          "Must have only one parameter, and that parameter must be a **kwargs parameter.")

/-- `does.validate`: empty body, then kwarg-only replacement, then
compatible return types — in that order. -/
def does.validate (d : does) (fn : PyFunction) : Except PyError Unit := do
  ensure_function_empty fn
  does.ensure_function_kwarg_only d.replacing_function
  does.ensure_output_types_match fn d.replacing_function

/-- `dynamic_transform.validate`: empty body, Series return annotation, no
parameters. -/
def dynamic_transform.validate (fn : PyFunction) : Except PyError Unit := do
  ensure_function_empty fn
  let b ← issubclass fn.retAnn PyType.series
  if !b then
    Except.error (PyError.invalidDecorator
      "Models must declare their return type as a pandas Series")
  else if fn.params.length > 0 then
    Except.error (PyError.invalidDecorator
      "Models must have no parameters -- all are passed in through the config")
  else Except.ok ()

/-! ### The `config` resolver -/

/-- A compile-time configuration: a flat string-keyed mapping. -/
abbrev Configuration := List (String × PyObj)

/-- Python `configuration.get(key)`: `None` when the key is absent. -/
def configurationGet (cfg : Configuration) (k : String) : PyObj :=
  (dget cfg k).getD (PyObj.val PyVal.pyNone)

/-- Modelled from the spec: `sanitize_function_name` lives in
hamilton/function_modifiers_base.py, which is not under src/; per spec
section 4.1 the resolved node name defaults to the prefix of the declared
name before the first double-underscore. -/
def sanitize_function_name (s : String) : String :=
  (s.splitOn "__").headD s

/-- The `config` resolver decorator: a predicate over the configuration and
an optional explicit target name. -/
structure config where
  does_resolve : Configuration → Bool
  target_name : Option String

/-- `config._get_function_name`: the explicit target name if given, else the
sanitized declared name. -/
def config.getFunctionName (c : config) (fn : PyFunction) : String :=
  match c.target_name with
  | some n => n
  | Option.none => sanitize_function_name fn.name

/-- `config.resolve`: when the predicate holds, the function is returned
renamed — and, as in the source (`fn.__name__ = ...`), the caller's function
object is mutated in place; the second component is the post-call state of
the input function object.  When the predicate fails, `None` is returned and
the input is untouched. -/
def config.resolve (c : config) (fn : PyFunction) (configuration : Configuration) :
    Option PyFunction × PyFunction :=
  if c.does_resolve configuration then
    let fn' := { fn with name := c.getFunctionName fn }
    (some fn', fn')
  else (Option.none, fn)

/-- `config.validate`: rejects declared names ending in the reserved
double-underscore marker. -/
def config.validate (fn : PyFunction) : Except PyError Unit :=
  if endsWithDunder fn.name then
    Except.error (PyError.invalidDecorator
      "Config will always use the portion of the function name before the last __.")
  else Except.ok ()

/-- `config.when`: resolves iff every expected key/value pair satisfies
`value == configuration.get(key)`. -/
def config.when (name : Option String) (key_value_pairs : List (String × PyObj)) : config :=
  { does_resolve := fun configuration =>
      key_value_pairs.all (fun pr => pr.2 == configurationGet configuration pr.1)
    target_name := name }

/-- Modelled from the spec: the compilation driver (out of scope of src/)
generates exactly one base node, pre-expansion, from a resolved function and
zero nodes when resolution signals absent (spec sections 4.1 and 5). -/
def pre_expansion_node_count (c : config) (fn : PyFunction)
    (configuration : Configuration) : Nat :=
  match (config.resolve c fn configuration).1 with
  | some _ => 1
  | Option.none => 0

/-! ### The `tag` metadata decorator -/

/-- The `tag` decorator: the requested tag map (values arbitrary, validation
restricts them to strings). -/
structure tag where
  tags : List (String × PyVal)

/-- The reserved top-level tag namespaces. -/
def tag.RESERVED_TAG_NAMESPACES : List String :=
  ["hamilton", "data_quality", "gdpr", "ccpa", "dag", "module"]

/-- `tag.decorate_node`: a copy of the node whose tag map is the decorator's
tags updated with the node's existing tags (existing tags win on
collision). -/
def tag.decorate_node (t : tag) (node_ : Node) : Node :=
  { name := node_.name
    typ := node_.typ
    documentation := node_.documentation
    callable := node_.callable
    node_source := node_.node_source
    input_types := node_.input_types
    tags := dupdate t.tags node_.tags }

/-- Python `str.isidentifier` (ASCII fragment): nonempty, the first
character a letter or underscore, the rest alphanumeric or underscore. -/
def isidentifierB (s : String) : Bool :=
  match s.data with
  | [] => false
  | c :: rest =>
    (c.isAlpha || c = '_') && rest.all (fun d => d.isAlphanum || d = '_')

/-- The worker of `splitOnDot`. -/
def splitDotGo : List Char → List Char → List String
  | [], acc => [String.mk acc.reverse]
  | c :: rest, acc =>
    if c = '.' then String.mk acc.reverse :: splitDotGo rest []
    else splitDotGo rest (c :: acc)

/-- Python `key.split('.')`: always nonempty, `''.split('.') == ['']`,
adjacent dots give empty components. -/
def splitOnDot (s : String) : List String :=
  splitDotGo s.data []

/-- `tag._key_allowed`: split on dots; the first component must not be a
reserved namespace and every component must be an identifier. -/
def tag.keyAllowed (key : String) : Bool :=
  match splitOnDot key with
  | [] => false
  | c0 :: _ =>
    if tag.RESERVED_TAG_NAMESPACES.contains c0 then false
    else (splitOnDot key).all isidentifierB

/-- `tag._value_allowed`: only plain strings are allowed as tag values. -/
def tag.valueAllowed (value : PyVal) : Bool :=
  match value with
  | PyVal.pyStrV _ => true
  | _ => false

/-- The offending tag pairs collected by `tag.validate`. -/
def tag.bad_tags (t : tag) : List (String × PyVal) :=
  t.tags.filter (fun pr => !(tag.keyAllowed pr.1 && tag.valueAllowed pr.2))

/-- The message of the tag-validation error: it lists every offending
`key=value` pair. -/
def tag.error_message (bad : List (String × PyVal)) : String :=
  "The following tags are invalid as tags: " ++
  joinComma (bad.map (fun pr => pr.1 ++ "=" ++ pyValRepr pr.2)) ++
  " Tag keys can be split by ., to represent a hierarchy, but each element of the hierarchy must be a valid python identifier."

/-- `tag.validate`: a single invalid-decorator error naming every offending
key/value pair, or success when there is none. -/
def tag.validate (t : tag) : Except PyError Unit :=
  if (tag.bad_tags t).isEmpty then Except.ok ()
  else Except.error (PyError.invalidDecorator (tag.error_message (tag.bad_tags t)))

/-! ### Concrete fixtures used by the closed instance theorems -/

/-- A concrete two-parameter function with a real body. -/
def fnAB : PyFunction :=
  { name := "fn_ab", doc := some "adds a and b", params :=
      [{ name := "a", kind := ParamKind.positionalOrKeyword, ann := PyType.series },
       { name := "b", kind := ParamKind.positionalOrKeyword, ann := PyType.series }],
    retAnn := PyType.series, body := [Stmt.other "return a + b"] }

/-- A concrete empty declaration function (one parameter, body `pass`). -/
def fnDecl : PyFunction :=
  { name := "fn_decl", doc := some "declares", params :=
      [{ name := "a", kind := ParamKind.positionalOrKeyword, ann := PyType.series }],
    retAnn := PyType.series, body := [Stmt.pass] }

/-- A concrete kwargs-only replacement function. -/
def fnRepl : PyFunction :=
  { name := "fn_repl", doc := Option.none, params :=
      [{ name := "kwargs", kind := ParamKind.varKeyword, ann := PyType.sigEmpty }],
    retAnn := PyType.series, body := [Stmt.other "return sum(kwargs)"] }

/-- A concrete implementation: returns its `a` input, or `None`. -/
def implA : Impl :=
  fun kwargs =>
    match dget kwargs "a" with
    | some v => Except.ok v
    | Option.none => Except.ok (PyObj.val PyVal.pyNone)

/-- A concrete node with two dependencies and one tag. -/
def nodeAB : Node :=
  { name := "base", typ := PyType.series, documentation := "base docs",
    callable := implA,
    input_types := [("a", PyType.series), ("b", PyType.series)],
    tags := [("module", PyVal.pyStrV "m")] }

/-- A concrete node producing an empty dataframe. -/
def nodeFrame : Node :=
  { name := "base_df", typ := PyType.dataframe, documentation := "frame docs",
    callable := fun _ => Except.ok (PyObj.frame []),
    input_types := [], tags := [] }

/-! ### Dictionary lemmas -/

theorem dget_dset_self {κ α : Type} [DecidableEq κ] (d : List (κ × α)) (k : κ) (v : α) :
    dget (dset d k v) k = some v := by
  induction d with
  | nil => simp [dget, dset]
  | cons p rest ih =>
    by_cases h : p.1 = k
    · simp [dset, h, dget]
    · simp [dset, h, dget, ih]

theorem dget_dset_ne {κ α : Type} [DecidableEq κ] (d : List (κ × α)) (k k' : κ) (v : α)
    (h : k' ≠ k) : dget (dset d k v) k' = dget d k' := by
  have h' : ¬ k = k' := Ne.symm h
  induction d with
  | nil => simp [dget, dset, h']
  | cons p rest ih =>
    by_cases hp : p.1 = k
    · have hpk' : ¬ p.1 = k' := by
        rw [hp]
        exact h'
      simp [dset, dget, hp, h', hpk']
    · simp only [dset, hp, if_false]
      by_cases hp' : p.1 = k'
      · simp [dget, hp']
      · simp [dget, hp', ih]

theorem dget_dremove_self {κ α : Type} [DecidableEq κ] (d : List (κ × α)) (k : κ) :
    dget (dremove d k) k = Option.none := by
  induction d with
  | nil => simp [dget, dremove]
  | cons p rest ih =>
    by_cases h : p.1 = k
    · simp [dremove, h, ih]
    · simp [dremove, h, dget, ih]

theorem dget_dremove_ne {κ α : Type} [DecidableEq κ] (d : List (κ × α)) (k k' : κ)
    (h : k' ≠ k) : dget (dremove d k) k' = dget d k' := by
  induction d with
  | nil => simp [dget, dremove]
  | cons p rest ih =>
    by_cases hp : p.1 = k
    · have hp' : ¬ p.1 = k' := by
        rw [hp]
        exact Ne.symm h
      simp [dremove, hp, dget, hp', Ne.symm h, ih]
    · simp [dremove, hp, dget, ih]

theorem filter_ne_eq_dremove {κ α : Type} [DecidableEq κ] (d : List (κ × α)) (x : κ) :
    d.filter (fun q => q.1 != x) = dremove d x := by
  induction d with
  | nil => simp [dremove]
  | cons p rest ih =>
    simp only [bne] at ih ⊢
    by_cases h : p.1 = x
    · simp [List.filter_cons, h, dremove, ih]
    · simp [List.filter_cons, h, dremove, ih]

theorem dget_eq_none_of_not_mem_keys {κ α : Type} [DecidableEq κ]
    (d : List (κ × α)) (k : κ) (h : k ∉ dkeys d) : dget d k = Option.none := by
  induction d with
  | nil => simp [dget]
  | cons p rest ih =>
    simp only [dkeys, List.map_cons, List.mem_cons, not_or] at h
    have h1 : ¬ p.1 = k := Ne.symm h.1
    have h2 : k ∉ dkeys rest := by
      simpa [dkeys] using h.2
    simp [dget, h1, ih h2]

theorem mem_keys_of_dget_some {κ α : Type} [DecidableEq κ]
    (d : List (κ × α)) (k : κ) (v : α) (h : dget d k = some v) : k ∈ dkeys d := by
  by_contra hmem
  rw [dget_eq_none_of_not_mem_keys d k hmem] at h
  exact Option.noConfusion h

theorem dupdate_cons {κ α : Type} [DecidableEq κ] (a : List (κ × α)) (p : κ × α)
    (rest : List (κ × α)) : dupdate a (p :: rest) = dupdate (dset a p.1 p.2) rest := by
  simp [dupdate]

theorem dget_dupdate_of_none {κ α : Type} [DecidableEq κ] (a b : List (κ × α)) (k : κ)
    (h : dget b k = Option.none) : dget (dupdate a b) k = dget a k := by
  induction b generalizing a with
  | nil => simp [dupdate]
  | cons p rest ih =>
    simp only [dget] at h
    by_cases hp : p.1 = k
    · simp [hp] at h
    · simp only [hp, if_false] at h
      rw [dupdate_cons, ih _ h, dget_dset_ne _ _ _ _ (Ne.symm hp)]

theorem dget_dupdate_of_some {κ α : Type} [DecidableEq κ] (a b : List (κ × α)) (k : κ) (v : α)
    (hnd : (dkeys b).Nodup) (h : dget b k = some v) : dget (dupdate a b) k = some v := by
  induction b generalizing a with
  | nil => simp [dget] at h
  | cons p rest ih =>
    simp only [dkeys, List.map_cons, List.nodup_cons] at hnd
    by_cases hp : p.1 = k
    · simp only [dget, hp, if_true, Option.some.injEq] at h
      have hrest : dget rest k = Option.none := by
        apply dget_eq_none_of_not_mem_keys
        rw [← hp]
        exact fun hc => hnd.1 (by simpa [dkeys] using hc)
      rw [dupdate_cons, dget_dupdate_of_none _ _ _ hrest, hp]
      rw [dget_dset_self, h]
    · simp only [dget, hp, if_false] at h
      rw [dupdate_cons]
      exact ih _ (by simpa [dkeys] using hnd.2) h

theorem dkeys_dset_sub {κ α : Type} [DecidableEq κ] (d : List (κ × α)) (k : κ) (v : α) :
    ∀ x ∈ dkeys (dset d k v), x = k ∨ x ∈ dkeys d := by
  induction d with
  | nil => simp [dset, dkeys]
  | cons p rest ih =>
    intro x hx
    by_cases hp : p.1 = k
    · simp only [dset, hp, if_true, dkeys, List.map_cons, List.mem_cons] at hx
      rcases hx with h | h
      · exact Or.inl h
      · exact Or.inr (by simp [dkeys]; right; simpa [dkeys] using h)
    · simp only [dset, hp, if_false, dkeys, List.map_cons, List.mem_cons] at hx
      rcases hx with h | h
      · exact Or.inr (by simp [dkeys, h])
      · rcases ih x (by simpa [dkeys] using h) with h' | h'
        · exact Or.inl h'
        · refine Or.inr ?_
          simp only [dkeys, List.map_cons, List.mem_cons]
          exact Or.inr (by simpa [dkeys] using h')

theorem dkeys_dset_nodup {κ α : Type} [DecidableEq κ] (d : List (κ × α)) (k : κ) (v : α)
    (h : (dkeys d).Nodup) : (dkeys (dset d k v)).Nodup := by
  induction d with
  | nil => simp [dset, dkeys]
  | cons p rest ih =>
    simp only [dkeys, List.map_cons, List.nodup_cons] at h
    by_cases hp : p.1 = k
    · simp only [dset, hp, if_true, dkeys, List.map_cons, List.nodup_cons]
      refine ⟨?_, h.2⟩
      rw [← hp]
      exact h.1
    · simp only [dset, hp, if_false, dkeys, List.map_cons, List.nodup_cons]
      constructor
      · intro hmem
        rcases dkeys_dset_sub rest k v p.1 (by simpa [dkeys] using hmem) with h' | h'
        · exact hp h'
        · exact h.1 (by simpa [dkeys] using h')
      · exact ih h.2

theorem dkeys_dupdate_nodup {κ α : Type} [DecidableEq κ] (a b : List (κ × α))
    (h : (dkeys a).Nodup) : (dkeys (dupdate a b)).Nodup := by
  induction b generalizing a with
  | nil => simpa [dupdate] using h
  | cons p rest ih =>
    rw [dupdate_cons]
    exact ih _ (dkeys_dset_nodup _ _ _ h)

/-! ### The renaming-move specification

`dmove` is the core of both dependency-substitution expanders; this lemma
characterises a successful run: sources disappear, each destination carries
its source's former value, everything else is untouched. -/

theorem dmove_spec {α : Type} (pairs : List (String × String)) :
    ∀ d : List (String × α),
    (pairs.map Prod.fst).Nodup →
    (pairs.map Prod.snd).Nodup →
    (∀ p ∈ pairs, ∀ q ∈ pairs, p.2 ≠ q.1) →
    (∀ p ∈ pairs, (dget d p.1).isSome = true) →
    ∃ d', dmove d pairs = Except.ok d' ∧
      (∀ p ∈ pairs, dget d' p.1 = Option.none) ∧
      (∀ p ∈ pairs, dget d' p.2 = dget d p.1) ∧
      (∀ k, (∀ p ∈ pairs, k ≠ p.1 ∧ k ≠ p.2) → dget d' k = dget d k) := by
  induction pairs with
  | nil =>
    intro d _ _ _ _
    exact ⟨d, rfl, by simp, by simp, fun k _ => rfl⟩
  | cons pr rest ih =>
    intro d hnds hndd hdisj hpres
    have hheads : pr ∈ pr :: rest := List.mem_cons_self pr rest
    have hne : pr.2 ≠ pr.1 := hdisj pr hheads pr hheads
    obtain ⟨v, hv⟩ := Option.isSome_iff_exists.mp (hpres pr hheads)
    have hpop : dpop d pr.1 = some (v, dremove d pr.1) := by
      simp [dpop, hv]
    set d1 : List (String × α) := dset (dremove d pr.1) pr.2 v with hd1
    have hget1 : ∀ q ∈ rest, dget d1 q.1 = dget d q.1 := by
      intro q hq
      have hq1 : q.1 ≠ pr.2 := fun hc => hdisj pr hheads q (List.mem_cons_of_mem pr hq) hc.symm
      have hq2 : q.1 ≠ pr.1 := by
        intro hc
        have := hnds
        simp only [List.map_cons, List.nodup_cons] at this
        exact this.1 (by
          rw [← hc]
          exact List.mem_map_of_mem Prod.fst hq)
      rw [hd1, dget_dset_ne _ _ _ _ hq1, dget_dremove_ne _ _ _ hq2]
    have hrest := ih d1
      (by simpa using hnds.of_cons)
      (by simpa using hndd.of_cons)
      (fun p hp q hq => hdisj p (List.mem_cons_of_mem pr hp) q (List.mem_cons_of_mem pr hq))
      (by
        intro q hq
        rw [hget1 q hq]
        exact hpres q (List.mem_cons_of_mem pr hq))
    obtain ⟨d', hok, hsrc, hdst, hframe⟩ := hrest
    refine ⟨d', ?_, ?_, ?_, ?_⟩
    · show dmove d (pr :: rest) = Except.ok d'
      rw [dmove, hpop]
      exact hok
    · intro p hp
      rcases List.mem_cons.mp hp with hpeq | hptail
      · subst hpeq
        have hfr : dget d' p.1 = dget d1 p.1 := by
          apply hframe
        -- p.1 is distinct from every key the remaining moves touch:
          intro q hq
          constructor
          · intro hc
            simp only [List.map_cons, List.nodup_cons] at hnds
            exact hnds.1 (by
              rw [hc]
              exact List.mem_map_of_mem Prod.fst hq)
          · intro hc
            exact hdisj q (List.mem_cons_of_mem p hq) p hheads (by rw [hc])
        rw [hfr, hd1, dget_dset_ne _ _ _ _ (Ne.symm hne), dget_dremove_self]
      · exact hsrc p hptail
    · intro p hp
      rcases List.mem_cons.mp hp with hpeq | hptail
      · subst hpeq
        have hfr : dget d' p.2 = dget d1 p.2 := by
          apply hframe
          intro q hq
          constructor
          · intro hc
            exact hdisj p hheads q (List.mem_cons_of_mem p hq) hc
          · intro hc
            simp only [List.map_cons, List.nodup_cons] at hndd
            exact hndd.1 (by
              rw [hc]
              exact List.mem_map_of_mem Prod.snd hq)
        rw [hfr, hd1, dget_dset_self, hv]
      · rw [hdst p hptail, hget1 p hptail]
    · intro k hk
      have hfr : dget d' k = dget d1 k := by
        apply hframe
        intro q hq
        exact hk q (List.mem_cons_of_mem pr hq)
      have hk1 := hk pr hheads
      rw [hfr, hd1, dget_dset_ne _ _ _ _ hk1.2, dget_dremove_ne _ _ _ hk1.1]

/-! ### Error-kind classification of the formatting machinery -/

theorem except_map_error {ε α β : Type} (f : α → β) (x : Except ε α) (e : ε)
    (h : x.map f = Except.error e) : x = Except.error e := by
  cases x with
  | ok a => simp [Except.map] at h
  | error e' =>
    simp only [Except.map, Except.error.injEq] at h
    rw [h]

/-- The error kinds `str.format` itself can raise. -/
def isFormatErrorKind (e : PyError) : Prop :=
  (∃ m, e = PyError.keyError m) ∨ (∃ m, e = PyError.valueError m) ∨
  (∃ m, e = PyError.indexError m)

theorem formatGo_error_kinds (subs : List (String × String)) :
    ∀ (cs : List Char) (st : FmtState) (e : PyError),
      formatGo subs st cs = Except.error e → isFormatErrorKind e := by
  intro cs
  induction cs with
  | nil =>
    intro st e h
    cases st with
    | norm => simp [formatGo] at h
    | sawL =>
      simp only [formatGo, Except.error.injEq] at h
      exact Or.inr (Or.inl ⟨_, h.symm⟩)
    | sawR =>
      simp only [formatGo, Except.error.injEq] at h
      exact Or.inr (Or.inl ⟨_, h.symm⟩)
    | field acc =>
      simp only [formatGo, Except.error.injEq] at h
      exact Or.inr (Or.inl ⟨_, h.symm⟩)
  | cons c rest ih =>
    intro st e h
    cases st with
    | norm =>
      rw [formatGo] at h
      by_cases hl : c = lbraceChar
      · rw [if_pos hl] at h
        exact ih _ _ h
      · rw [if_neg hl] at h
        by_cases hr : c = rbraceChar
        · rw [if_pos hr] at h
          exact ih _ _ h
        · rw [if_neg hr] at h
          exact ih _ _ (except_map_error _ _ _ h)
    | sawL =>
      rw [formatGo] at h
      by_cases hl : c = lbraceChar
      · rw [if_pos hl] at h
        exact ih _ _ (except_map_error _ _ _ h)
      · rw [if_neg hl] at h
        by_cases hr : c = rbraceChar
        · rw [if_pos hr] at h
          simp only [Except.error.injEq] at h
          exact Or.inr (Or.inr ⟨_, h.symm⟩)
        · rw [if_neg hr] at h
          exact ih _ _ h
    | sawR =>
      rw [formatGo] at h
      by_cases hr : c = rbraceChar
      · rw [if_pos hr] at h
        exact ih _ _ (except_map_error _ _ _ h)
      · rw [if_neg hr] at h
        simp only [Except.error.injEq] at h
        exact Or.inr (Or.inl ⟨_, h.symm⟩)
    | field acc =>
      rw [formatGo] at h
      by_cases hr : c = rbraceChar
      · rw [if_pos hr] at h
        by_cases hpos : isPositionalName acc.reverse = true
        · rw [if_pos hpos] at h
          simp only [Except.error.injEq] at h
          exact Or.inr (Or.inr ⟨_, h.symm⟩)
        · rw [if_neg hpos] at h
          cases hlook : dget subs (String.mk acc.reverse) with
          | some v =>
            rw [hlook] at h
            exact ih _ _ (except_map_error _ _ _ h)
          | none =>
            rw [hlook] at h
            simp only [Except.error.injEq] at h
            exact Or.inl ⟨_, h.symm⟩
      · rw [if_neg hr] at h
        exact ih _ _ h

theorem pyFormat_error_kinds (template : String) (subs : List (String × String))
    (e : PyError) (h : pyFormat template subs = Except.error e) : isFormatErrorKind e :=
  formatGo_error_kinds subs template.data FmtState.norm e h

/-- The error kinds `format_doc_string` can raise: the formatting kinds plus
the missing-docstring `AttributeError` and the duplicate-keyword
`TypeError`. -/
def isDocFormatErrorKind (e : PyError) : Prop :=
  isFormatErrorKind e ∨ (∃ m, e = PyError.attributeError m) ∨
  (∃ m, e = PyError.typeError m)

theorem format_doc_string_error_kinds (doc : Option String) (output_name : String)
    (params : List (String × String)) (e : PyError)
    (h : format_doc_string doc output_name params = Except.error e) :
    isDocFormatErrorKind e := by
  cases doc with
  | none =>
    simp only [format_doc_string, Except.error.injEq] at h
    exact Or.inr (Or.inl ⟨_, h.symm⟩)
  | some d =>
    rw [format_doc_string] at h
    by_cases hm : dmem params "output_name" = true
    · rw [if_pos hm] at h
      simp only [Except.error.injEq] at h
      exact Or.inr (Or.inr ⟨_, h.symm⟩)
    · rw [if_neg hm] at h
      exact Or.inl (pyFormat_error_kinds _ _ _ h)

theorem formatCheckGo_error_kinds (doc : Option String) :
    ∀ (l : List (String × List (String × String))) (e : PyError),
      parameterized_inputs.formatCheckGo doc l = Except.error e → isDocFormatErrorKind e := by
  intro l
  induction l with
  | nil =>
    intro e h
    simp [parameterized_inputs.formatCheckGo] at h
  | cons p rest ih =>
    intro e h
    rw [parameterized_inputs.formatCheckGo] at h
    cases hf : format_doc_string doc p.1 p.2 with
    | ok s =>
      rw [hf] at h
      simp only [bind, Except.bind] at h
      exact ih e h
    | error e' =>
      rw [hf] at h
      simp only [bind, Except.bind] at h
      cases h
      exact format_doc_string_error_kinds _ _ _ _ hf

/-! ### Every element of a comma-join is visible in the joined string -/

theorem joinComma_mem_infix (a : String) :
    ∀ l : List String, a ∈ l → ∃ u w, joinComma l = u ++ a ++ w := by
  intro l
  induction l with
  | nil => intro h; cases h
  | cons x rest ih =>
    intro h
    cases rest with
    | nil =>
      rcases List.mem_singleton.mp h with rfl
      exact ⟨"", "", by simp [joinComma]⟩
    | cons y tail =>
      rcases List.mem_cons.mp h with rfl | htail
      · refine ⟨"", "," ++ joinComma (y :: tail), ?_⟩
        rw [joinComma, String.empty_append, String.append_assoc]
      · obtain ⟨u, w, hu⟩ := ih htail
        refine ⟨x ++ "," ++ u, w, ?_⟩
        rw [joinComma, hu]
        simp only [String.append_assoc]

/-! ### Except and emptiness helper lemmas -/

theorem exceptBind_ok {ε α β : Type} (x : Except ε α) (f : α → Except ε β) (r : β)
    (h : (do let a ← x; f a) = Except.ok r) :
    ∃ a, x = Except.ok a ∧ f a = Except.ok r := by
  cases x with
  | ok a => exact ⟨a, rfl, h⟩
  | error e => exact Except.noConfusion h

theorem ensure_function_empty_ok (fn : PyFunction)
    (h : ensure_function_empty fn = Except.ok ()) : coCode fn = [] := by
  rw [ensure_function_empty] at h
  by_cases hc : (coCode fn == coCode emptyFunction
      || coCode fn == coCode emptyFunctionWithDocstring) = true
  · have h1 : coCode emptyFunction = [] := rfl
    have h2 : coCode emptyFunctionWithDocstring = [] := rfl
    rw [h1, h2, Bool.or_self] at hc
    exact eq_of_beq hc
  · rw [if_neg hc] at h
    cases h

theorem ensure_function_empty_error (fn : PyFunction) (hne : coCode fn ≠ []) :
    ensure_function_empty fn = Except.error (PyError.invalidDecorator
      ("Function: " ++ fn.name ++
       " is not empty. Must have only one line that consists of \"pass\"")) := by
  rw [ensure_function_empty]
  have h1 : coCode emptyFunction = [] := rfl
  have h2 : coCode emptyFunctionWithDocstring = [] := rfl
  rw [h1, h2, Bool.or_self]
  rw [if_neg]
  intro hc
  exact hne (eq_of_beq hc)

theorem map_swap_fst (l : List (String × String)) :
    (l.map (fun pr => (pr.2, pr.1))).map Prod.fst = l.map Prod.snd := by
  induction l with
  | nil => rfl
  | cons p rest ih => simp [ih]

theorem map_swap_snd (l : List (String × String)) :
    (l.map (fun pr => (pr.2, pr.1))).map Prod.snd = l.map Prod.fst := by
  induction l with
  | nil => rfl
  | cons p rest ih => simp [ih]

/-! ### Claim C1 -/

/-- Claim C1: under a configuration that binds every expected key, a
function decorated with `config.when(**kv)` resolves — and (per the
spec-modelled driver) contributes exactly one node pre-expansion — if and
only if `configuration[key] == value` for every expected (key, value) pair;
otherwise `resolve` signals absent and the function contributes zero
nodes. -/
theorem claim_C1_config_when_resolution (name : Option String)
    (kv : List (String × PyObj)) (cfg : Configuration) (fn : PyFunction)
    (hkeys : ∀ p ∈ kv, dmem cfg p.1 = true) :
    (((config.when name kv).resolve fn cfg).1.isSome = true ↔
      ∀ p ∈ kv, dget cfg p.1 = some p.2) ∧
    pre_expansion_node_count (config.when name kv) fn cfg =
      (if (∀ p ∈ kv, dget cfg p.1 = some p.2) then 1 else 0) := by
  have hpred : ((config.when name kv).does_resolve cfg = true) ↔
      (∀ p ∈ kv, dget cfg p.1 = some p.2) := by
    show (kv.all (fun pr => pr.2 == configurationGet cfg pr.1) = true) ↔ _
    rw [List.all_eq_true]
    constructor
    · intro h p hp
      have hb : (p.2 == configurationGet cfg p.1) = true := h p hp
      have heq : p.2 = configurationGet cfg p.1 := beq_iff_eq.mp hb
      obtain ⟨w, hw⟩ := Option.isSome_iff_exists.mp (hkeys p hp)
      rw [configurationGet, hw] at heq
      simp only [Option.getD_some] at heq
      rw [hw, heq]
    · intro h p hp
      show (p.2 == configurationGet cfg p.1) = true
      rw [configurationGet, h p hp]
      simp
  constructor
  · rw [config.resolve]
    by_cases hres : (config.when name kv).does_resolve cfg = true
    · rw [if_pos hres]
      simpa using hpred.mp hres
    · rw [if_neg hres]
      simp only [Option.isSome_none, Bool.false_eq_true, false_iff]
      intro hall
      exact hres (hpred.mpr hall)
  · rw [pre_expansion_node_count, config.resolve]
    by_cases hres : (config.when name kv).does_resolve cfg = true
    · rw [if_pos hres, if_pos (hpred.mp hres)]
    · rw [if_neg hres, if_neg (fun hall => hres (hpred.mpr hall))]

/-- Witness for claim C1 at a concrete configuration and expectation map. -/
theorem claim_C1_witness :
    (((config.when (some "n") [("key", PyObj.val (PyVal.pyStrV "a"))]).resolve fnAB
        [("key", PyObj.val (PyVal.pyStrV "a"))]).1.isSome = true ↔
      ∀ p ∈ [("key", PyObj.val (PyVal.pyStrV "a"))],
        dget ([("key", PyObj.val (PyVal.pyStrV "a"))] : Configuration) p.1 = some p.2) ∧
    pre_expansion_node_count (config.when (some "n") [("key", PyObj.val (PyVal.pyStrV "a"))])
        fnAB [("key", PyObj.val (PyVal.pyStrV "a"))] =
      (if (∀ p ∈ [("key", PyObj.val (PyVal.pyStrV "a"))],
          dget ([("key", PyObj.val (PyVal.pyStrV "a"))] : Configuration) p.1 = some p.2)
       then 1 else 0) :=
  claim_C1_config_when_resolution (some "n") [("key", PyObj.val (PyVal.pyStrV "a"))]
    [("key", PyObj.val (PyVal.pyStrV "a"))] fnAB (by decide)

/-! ### Claim C2 -/

/-- Claim C2: for every node whose input-dependency map has the target
parameter and every fixed-value assignment map, `parametrized.expand_node`
produces exactly one node per entry; each produced node drops the target
parameter from its input-dependency map, keeps every other input's binding
unchanged, and its implementation is the original implementation with the
target parameter bound to the entry's fixed value
(`functools.partial`). -/
theorem claim_C2_parametrized_expansion (p : parametrized) (node_ : Node)
    (_hp : dmem node_.input_types p.parameter = true) :
    (p.expand_node node_).length = p.assigned_output.length ∧
    List.Forall₂ (fun (nd : Node) (e : (String × String) × PyObj) =>
        nd.name = e.1.1 ∧ nd.documentation = e.1.2 ∧ nd.typ = node_.typ ∧
        dmem nd.input_types p.parameter = false ∧
        (∀ k, k ≠ p.parameter → dget nd.input_types k = dget node_.input_types k) ∧
        nd.callable = partialKw node_.callable p.parameter e.2)
      (p.expand_node node_) p.assigned_output := by
  constructor
  · rw [parametrized.expand_node, List.length_map]
  · rw [parametrized.expand_node, List.forall₂_map_left_iff, List.forall₂_same]
    intro e _
    refine ⟨rfl, rfl, rfl, ?_, ?_, rfl⟩
    · show dmem (node_.input_types.filter fun q => q.1 != p.parameter) p.parameter = false
      rw [dmem, filter_ne_eq_dremove, dget_dremove_self]
      rfl
    · intro k hk
      show dget (node_.input_types.filter fun q => q.1 != p.parameter) k =
        dget node_.input_types k
      rw [filter_ne_eq_dremove, dget_dremove_ne _ _ _ hk]

/-- Witness for claim C2: a concrete one-entry expansion over `nodeAB`. -/
theorem claim_C2_witness :
    ((parametrized.mk "a" [(("n1", "d1"), PyObj.val (PyVal.pyInt 5))]).expand_node nodeAB).length =
      [(("n1", "d1"), PyObj.val (PyVal.pyInt 5))].length ∧
    List.Forall₂ (fun (nd : Node) (e : (String × String) × PyObj) =>
        nd.name = e.1.1 ∧ nd.documentation = e.1.2 ∧ nd.typ = nodeAB.typ ∧
        dmem nd.input_types "a" = false ∧
        (∀ k, k ≠ "a" → dget nd.input_types k = dget nodeAB.input_types k) ∧
        nd.callable = partialKw nodeAB.callable "a" e.2)
      ((parametrized.mk "a" [(("n1", "d1"), PyObj.val (PyVal.pyInt 5))]).expand_node nodeAB)
      [(("n1", "d1"), PyObj.val (PyVal.pyInt 5))] :=
  claim_C2_parametrized_expansion
    (parametrized.mk "a" [(("n1", "d1"), PyObj.val (PyVal.pyInt 5))]) nodeAB (by decide)

/-! ### Claim C4 -/

/-- Claim C4: `tag.decorate_node` returns a node identical to its input in
name, output type, documentation, implementation reference, node source and
input-dependency map; its tag map is the union of the decorator's tags and
the node's existing tags with the existing tags winning on key collision;
hence composing outer `tag(x="1")` after inner `tag(x="2")` yields a node
whose tag `x` is `"2"`. -/
theorem claim_C4_tag_decorate_node (t : tag) (node_ : Node) :
    ((tag.decorate_node t node_).name = node_.name ∧
     (tag.decorate_node t node_).typ = node_.typ ∧
     (tag.decorate_node t node_).documentation = node_.documentation ∧
     (tag.decorate_node t node_).callable = node_.callable ∧
     (tag.decorate_node t node_).node_source = node_.node_source ∧
     (tag.decorate_node t node_).input_types = node_.input_types) ∧
    ((dkeys node_.tags).Nodup →
      (∀ k v, dget node_.tags k = some v →
        dget (tag.decorate_node t node_).tags k = some v) ∧
      (∀ k, dget node_.tags k = Option.none →
        dget (tag.decorate_node t node_).tags k = dget t.tags k)) ∧
    ((dkeys node_.tags).Nodup → dget node_.tags "x" = Option.none →
      dget ((tag.decorate_node (tag.mk [("x", PyVal.pyStrV "1")])
          (tag.decorate_node (tag.mk [("x", PyVal.pyStrV "2")]) node_)).tags) "x" =
        some (PyVal.pyStrV "2")) := by
  refine ⟨⟨rfl, rfl, rfl, rfl, rfl, rfl⟩, ?_, ?_⟩
  · intro hnd
    constructor
    · intro k v hv
      exact dget_dupdate_of_some _ _ _ _ hnd hv
    · intro k hk
      exact dget_dupdate_of_none _ _ _ hk
  · intro hnd hx
    have hinner : dget (tag.decorate_node (tag.mk [("x", PyVal.pyStrV "2")]) node_).tags "x" =
        some (PyVal.pyStrV "2") := by
      show dget (dupdate [("x", PyVal.pyStrV "2")] node_.tags) "x" = some (PyVal.pyStrV "2")
      rw [dget_dupdate_of_none _ _ _ hx]
      rfl
    have hinnernd : (dkeys (tag.decorate_node (tag.mk [("x", PyVal.pyStrV "2")]) node_).tags).Nodup := by
      show (dkeys (dupdate [("x", PyVal.pyStrV "2")] node_.tags)).Nodup
      exact dkeys_dupdate_nodup _ _ (by simp [dkeys])
    exact dget_dupdate_of_some _ _ _ _ hinnernd hinner

/-- Witness for claim C4 at the concrete node `nodeAB`. -/
theorem claim_C4_witness :
    dget ((tag.decorate_node (tag.mk [("x", PyVal.pyStrV "1")])
        (tag.decorate_node (tag.mk [("x", PyVal.pyStrV "2")]) nodeAB)).tags) "x" =
      some (PyVal.pyStrV "2") :=
  (claim_C4_tag_decorate_node (tag.mk [("x", PyVal.pyStrV "1")]) nodeAB).2.2
    (by decide) (by decide)

/-! ### Claim C9 -/

/-- Claim C9: a tag key whose first dot-separated component is reserved is
rejected for any value; a key passes `_key_allowed` only if it is non-empty,
every dot-separated component is a valid identifier and its first component
is not reserved; a value is allowed exactly when it is a plain string; and
`tag.validate` raises a single invalid-decorator error whose message names
every offending key/value pair (and succeeds when there is none). -/
theorem claim_C9_tag_key_validation :
    (∀ (t : tag) (key : String) (v : PyVal), (key, v) ∈ t.tags →
      (splitOnDot key).headD "" ∈ tag.RESERVED_TAG_NAMESPACES →
      ∃ m, tag.validate t = Except.error (PyError.invalidDecorator m)) ∧
    (∀ key : String, tag.keyAllowed key = true →
      key ≠ "" ∧ (splitOnDot key).all isidentifierB = true ∧
      (splitOnDot key).headD "" ∉ tag.RESERVED_TAG_NAMESPACES) ∧
    (∀ v : PyVal, tag.valueAllowed v = true ↔ ∃ s, v = PyVal.pyStrV s) ∧
    (∀ t : tag, tag.bad_tags t ≠ [] →
      tag.validate t =
        Except.error (PyError.invalidDecorator (tag.error_message (tag.bad_tags t))) ∧
      ∀ p ∈ tag.bad_tags t, ∃ u w,
        tag.error_message (tag.bad_tags t) = u ++ (p.1 ++ "=" ++ pyValRepr p.2) ++ w) ∧
    (∀ t : tag, tag.bad_tags t = [] → tag.validate t = Except.ok ()) := by
  have hreserved : ∀ key : String,
      (splitOnDot key).headD "" ∈ tag.RESERVED_TAG_NAMESPACES →
      tag.keyAllowed key = false := by
    intro key hres
    rw [tag.keyAllowed]
    cases h : splitOnDot key with
    | nil => rfl
    | cons c0 tl =>
      rw [h] at hres
      simp only [List.headD_cons] at hres
      have hc : tag.RESERVED_TAG_NAMESPACES.contains c0 = true :=
        List.elem_eq_true_of_mem hres
      show (if tag.RESERVED_TAG_NAMESPACES.contains c0 = true then false
            else (c0 :: tl).all isidentifierB) = false
      rw [if_pos hc]
  have hvalidate_err : ∀ t : tag, tag.bad_tags t ≠ [] →
      tag.validate t =
        Except.error (PyError.invalidDecorator (tag.error_message (tag.bad_tags t))) := by
    intro t hne
    have hempty : (tag.bad_tags t).isEmpty = false := by
      cases hb : tag.bad_tags t with
      | nil => exact absurd hb hne
      | cons q rest => rfl
    rw [tag.validate, hempty]
    simp
  refine ⟨?_, ?_, ?_, ?_, ?_⟩
  · intro t key v hmem hres
    have hbad : (key, v) ∈ tag.bad_tags t := by
      rw [tag.bad_tags]
      refine List.mem_filter.mpr ⟨hmem, ?_⟩
      simp [hreserved key hres]
    have hne : tag.bad_tags t ≠ [] := by
      intro hc
      rw [hc] at hbad
      cases hbad
    exact ⟨_, hvalidate_err t hne⟩
  · intro key hkA
    rw [tag.keyAllowed] at hkA
    cases h : splitOnDot key with
    | nil => rw [h] at hkA; cases hkA
    | cons c0 tl =>
      rw [h] at hkA
      have hkA' : (if tag.RESERVED_TAG_NAMESPACES.contains c0 = true then false
            else (c0 :: tl).all isidentifierB) = true := hkA
      by_cases hres : tag.RESERVED_TAG_NAMESPACES.contains c0 = true
      · rw [if_pos hres] at hkA'; cases hkA'
      · rw [if_neg hres] at hkA'
        refine ⟨?_, hkA', ?_⟩
        · intro hc
          subst hc
          have hsplit : splitOnDot "" = [""] := by decide
          rw [hsplit] at h
          have hc0 : c0 = "" := by
            injection h with h1 h2
            exact h1.symm
          have hid : isidentifierB c0 = true :=
            List.all_eq_true.mp hkA' c0 (List.mem_cons_self _ _)
          rw [hc0] at hid
          exact absurd hid (by decide)
        · rw [List.headD_cons]
          intro hcm
          exact hres (List.elem_eq_true_of_mem hcm)
  · intro v
    constructor
    · intro h
      cases v with
      | pyStrV s => exact ⟨s, rfl⟩
      | pyNone => cases h
      | pyBool b => cases h
      | pyInt n => cases h
      | pyTuple2 a b => cases h
    · rintro ⟨s, rfl⟩
      rfl
  · intro t hne
    constructor
    · exact hvalidate_err t hne
    · intro p hp
      have hmap : (p.1 ++ "=" ++ pyValRepr p.2) ∈
          (tag.bad_tags t).map (fun pr => pr.1 ++ "=" ++ pyValRepr pr.2) :=
        List.mem_map_of_mem _ hp
      obtain ⟨u, w, hu⟩ := joinComma_mem_infix _ _ hmap
      refine ⟨"The following tags are invalid as tags: " ++ u,
        w ++ " Tag keys can be split by ., to represent a hierarchy, but each element of the hierarchy must be a valid python identifier.", ?_⟩
      rw [tag.error_message, hu]
      simp only [String.append_assoc]
  · intro t hb
    rw [tag.validate, hb]
    rfl

/-- Witness for claim C9: the reserved-namespace key `hamilton.x` forces a
validation error. -/
theorem claim_C9_witness :
    ∃ m, tag.validate (tag.mk [("hamilton.x", PyVal.pyStrV "v")]) =
      Except.error (PyError.invalidDecorator m) :=
  claim_C9_tag_key_validation.1 (tag.mk [("hamilton.x", PyVal.pyStrV "v")])
    "hamilton.x" (PyVal.pyStrV "v") (by decide) (by decide)

/-! ### Claim C6 -/

/-- Claim C6: a function whose body contains any statement beyond an
optional docstring and a no-op fails `does.validate` with the "not empty"
invalid-decorator violation; and a validation that succeeds guarantees the
body is empty, the replacement takes exactly one `**kwargs` parameter, and
the replacement's declared return type is a subclass of (or equal to) the
original's. -/
theorem claim_C6_does_validation (d : does) (fn : PyFunction) :
    (coCode fn ≠ [] →
      does.validate d fn = Except.error (PyError.invalidDecorator
        ("Function: " ++ fn.name ++
         " is not empty. Must have only one line that consists of \"pass\""))) ∧
    (does.validate d fn = Except.ok () →
      coCode fn = [] ∧
      (∃ p, d.replacing_function.params = [p] ∧ p.kind = ParamKind.varKeyword) ∧
      subclassB d.replacing_function.retAnn fn.retAnn = true) := by
  constructor
  · intro hne
    rw [does.validate, ensure_function_empty_error fn hne]
    rfl
  · intro hok
    rw [does.validate] at hok
    obtain ⟨u1, he, hrest⟩ := exceptBind_ok _ _ _ hok
    obtain ⟨u2, hk, hout⟩ := exceptBind_ok _ _ _ hrest
    refine ⟨ensure_function_empty_ok fn he, ?_, ?_⟩
    · rw [does.ensure_function_kwarg_only] at hk
      by_cases hl : d.replacing_function.params.length > 1
      · rw [if_pos hl] at hk
        cases hk
      · rw [if_neg hl] at hk
        cases hp : d.replacing_function.params with
        | nil =>
          rw [hp] at hk
          cases hk
        | cons p tail =>
          rw [hp] at hk
          have hk' : (if p.kind = ParamKind.varKeyword then Except.ok ()
              else Except.error (PyError.invalidDecorator
                "Must have only one parameter, and that parameter must be a **kwargs parameter.")) =
              Except.ok () := hk
          by_cases hkind : p.kind = ParamKind.varKeyword
          · refine ⟨p, ?_, hkind⟩
            cases tail with
            | nil => rfl
            | cons q qtail =>
              exfalso
              apply hl
              rw [hp]
              simp [List.length_cons]
          · rw [if_neg hkind] at hk'
            cases hk'
    · rw [does.ensure_output_types_match] at hout
      cases hi : issubclass d.replacing_function.retAnn fn.retAnn with
      | error e =>
        rw [hi] at hout
        exact Except.noConfusion hout
      | ok b =>
        rw [hi] at hout
        by_cases hb : b = true
        · subst hb
          rw [issubclass] at hi
          by_cases h1 : d.replacing_function.retAnn.isClass = false
          · rw [if_pos h1] at hi
            cases hi
          · rw [if_neg h1] at hi
            by_cases h2 : fn.retAnn.isClass = false
            · rw [if_pos h2] at hi
              cases hi
            · rw [if_neg h2] at hi
              exact Except.ok.inj hi
        · rw [Bool.not_eq_true] at hb
          subst hb
          exact Except.noConfusion hout

/-- Witness for claim C6: a non-empty-bodied `fnAB` fails validation with
the "not empty" violation, and validation of the empty `fnDecl` with the
kwargs-only replacement `fnRepl` implies the required shape. -/
theorem claim_C6_witness :
    does.validate (does.mk fnRepl) fnAB = Except.error (PyError.invalidDecorator
      ("Function: " ++ fnAB.name ++
       " is not empty. Must have only one line that consists of \"pass\"")) ∧
    (does.validate (does.mk fnRepl) fnDecl = Except.ok () →
      coCode fnDecl = [] ∧
      (∃ p, (does.mk fnRepl).replacing_function.params = [p] ∧
        p.kind = ParamKind.varKeyword) ∧
      subclassB (does.mk fnRepl).replacing_function.retAnn fnDecl.retAnn = true) :=
  ⟨(claim_C6_does_validation (does.mk fnRepl) fnAB).1 (by decide),
   (claim_C6_does_validation (does.mk fnRepl) fnDecl).2⟩

/-! ### Claim C3 -/

/-- Counterexample for claim C3: `parametrized_input('a', {'a': ('n1','d1')})`
— the substitute name equal to the target parameter — generates a node whose
input-dependency map still contains the replaced target parameter `a`
(the pop re-inserts it), so the claim's "does not contain the replaced
target parameter name" is false at this input. -/
theorem claim_C3_counterexample :
    ((parametrized_input.mk "a" [("a", ("n1", "d1"))]).expand_node nodeAB).map
        (fun l => l.map (fun nd => nd.input_types)) =
      Except.ok [[("b", PyType.series), ("a", PyType.series)]] ∧
    ((parametrized_input.mk "a" [("a", ("n1", "d1"))]).expand_node nodeAB).map
        (fun l => l.map (fun nd => dmem nd.input_types "a")) =
      Except.ok [true] :=
  ⟨rfl, rfl⟩

/-- Claim C3 as amended: provided no substitute dependency name coincides
with a replaced target parameter (and, for the plural form, the mapping's
targets and substitutes are each pairwise distinct, targets exist among the
node's inputs, and the docstring template formats), every generated node's
input-dependency map contains the substitute name and lacks the target
parameter name, and invoking the generated implementation with the
substitute as a named argument calls the original implementation with that
value passed under the target parameter name. -/
theorem claim_C3_amended_dependency_substitution :
    (∀ (pin : parametrized_input) (node_ : Node),
      (dget node_.input_types pin.parameter).isSome = true →
      (∀ e ∈ pin.assigned_output, e.1 ≠ pin.parameter) →
      ∃ ns, pin.expand_node node_ = Except.ok ns ∧
        List.Forall₂ (fun (nd : Node) (e : String × (String × String)) =>
          nd.name = e.2.1 ∧ nd.documentation = e.2.2 ∧
          dget nd.input_types e.1 ≠ Option.none ∧
          dget nd.input_types pin.parameter = Option.none ∧
          (∀ (kw : Kwargs) (v : PyObj), dget kw e.1 = some v →
            ∃ kw', dmove kw [(e.1, pin.parameter)] = Except.ok kw' ∧
              nd.callable kw = node_.callable kw' ∧
              dget kw' pin.parameter = some v))
          ns pin.assigned_output) ∧
    (∀ (pz : parameterized_inputs) (node_ : Node),
      (∀ e ∈ pz.parametrization,
        (e.2.map Prod.fst).Nodup ∧ (e.2.map Prod.snd).Nodup ∧
        (∀ pr ∈ e.2, ∀ qr ∈ e.2, pr.2 ≠ qr.1) ∧
        (∀ pr ∈ e.2, (dget node_.input_types pr.1).isSome = true) ∧
        (∃ dsc, format_doc_string (some node_.documentation) e.1 e.2 = Except.ok dsc)) →
      ∃ ns, pz.expand_node node_ = Except.ok ns ∧
        List.Forall₂ (fun (nd : Node) (e : String × List (String × String)) =>
          nd.name = e.1 ∧
          (∀ pr ∈ e.2, dget nd.input_types pr.2 ≠ Option.none ∧
            dget nd.input_types pr.1 = Option.none) ∧
          (∀ kw : Kwargs, (∀ pr ∈ e.2, (dget kw pr.2).isSome = true) →
            ∃ kw', nd.callable kw = node_.callable kw' ∧
              ∀ pr ∈ e.2, dget kw' pr.1 = dget kw pr.2))
          ns pz.parametrization) := by
  constructor
  · intro pin node_ hp hne
    rw [parametrized_input.expand_node]
    suffices hgen : ∀ l : List (String × (String × String)),
        (∀ e ∈ l, e.1 ≠ pin.parameter) →
        ∃ ns, parametrized_input.expandGo pin node_ l = Except.ok ns ∧
          List.Forall₂ (fun (nd : Node) (e : String × (String × String)) =>
            nd.name = e.2.1 ∧ nd.documentation = e.2.2 ∧
            dget nd.input_types e.1 ≠ Option.none ∧
            dget nd.input_types pin.parameter = Option.none ∧
            (∀ (kw : Kwargs) (v : PyObj), dget kw e.1 = some v →
              ∃ kw', dmove kw [(e.1, pin.parameter)] = Except.ok kw' ∧
                nd.callable kw = node_.callable kw' ∧
                dget kw' pin.parameter = some v))
            ns l by
      exact hgen pin.assigned_output hne
    intro l
    induction l with
    | nil => exact fun _ => ⟨[], rfl, List.Forall₂.nil⟩
    | cons e rest ih =>
      intro hne'
      have hnee : e.1 ≠ pin.parameter := hne' e (List.mem_cons_self _ _)
      obtain ⟨m', hmok, hsrc, hdst, _⟩ :=
        dmove_spec [(pin.parameter, e.1)] node_.input_types
          (List.nodup_singleton _) (List.nodup_singleton _)
          (by
            intro p hp' q hq'
            rw [List.mem_singleton] at hp' hq'
            subst hp'
            subst hq'
            exact hnee)
          (by
            intro p hp'
            rw [List.mem_singleton] at hp'
            subst hp'
            exact hp)
      obtain ⟨ns, hns, hfa⟩ := ih (fun q hq => hne' q (List.mem_cons_of_mem _ hq))
      refine ⟨{ name := e.2.1, typ := node_.typ, documentation := e.2.2,
                callable := parametrized_input.new_fn pin node_ e.1,
                input_types := m', tags := node_.tags } :: ns, ?_, ?_⟩
      · rw [parametrized_input.expandGo, hmok, hns]
        rfl
      · refine List.Forall₂.cons ⟨rfl, rfl, ?_, ?_, ?_⟩ hfa
        · have := hdst (pin.parameter, e.1) (List.mem_singleton_self _)
          rw [this]
          exact Option.ne_none_iff_isSome.mpr hp
        · exact hsrc (pin.parameter, e.1) (List.mem_singleton_self _)
        · intro kw v hv
          obtain ⟨kw', hkok, _, hkdst, _⟩ :=
            dmove_spec [(e.1, pin.parameter)] kw
              (List.nodup_singleton _) (List.nodup_singleton _)
              (by
                intro p hp' q hq'
                rw [List.mem_singleton] at hp' hq'
                subst hp'
                subst hq'
                exact Ne.symm hnee)
              (by
                intro p hp'
                rw [List.mem_singleton] at hp'
                subst hp'
                rw [hv]
                rfl)
          refine ⟨kw', hkok, ?_, ?_⟩
          · show parametrized_input.new_fn pin node_ e.1 kw = node_.callable kw'
            rw [parametrized_input.new_fn, hkok]
          · have := hkdst (e.1, pin.parameter) (List.mem_singleton_self _)
            rw [this, hv]
  · intro pz node_ hents
    rw [parameterized_inputs.expand_node]
    suffices hgen : ∀ l : List (String × List (String × String)),
        (∀ e ∈ l,
          (e.2.map Prod.fst).Nodup ∧ (e.2.map Prod.snd).Nodup ∧
          (∀ pr ∈ e.2, ∀ qr ∈ e.2, pr.2 ≠ qr.1) ∧
          (∀ pr ∈ e.2, (dget node_.input_types pr.1).isSome = true) ∧
          (∃ dsc, format_doc_string (some node_.documentation) e.1 e.2 = Except.ok dsc)) →
        ∃ ns, parameterized_inputs.expandGo node_ l = Except.ok ns ∧
          List.Forall₂ (fun (nd : Node) (e : String × List (String × String)) =>
            nd.name = e.1 ∧
            (∀ pr ∈ e.2, dget nd.input_types pr.2 ≠ Option.none ∧
              dget nd.input_types pr.1 = Option.none) ∧
            (∀ kw : Kwargs, (∀ pr ∈ e.2, (dget kw pr.2).isSome = true) →
              ∃ kw', nd.callable kw = node_.callable kw' ∧
                ∀ pr ∈ e.2, dget kw' pr.1 = dget kw pr.2))
            ns l by
      exact hgen pz.parametrization hents
    intro l
    induction l with
    | nil => exact fun _ => ⟨[], rfl, List.Forall₂.nil⟩
    | cons e rest ih =>
      intro hents'
      obtain ⟨hnd1, hnd2, hdisj, hpres, dsc, hdsc⟩ := hents' e (List.mem_cons_self _ _)
      obtain ⟨m', hmok, hsrc, hdst, _⟩ :=
        dmove_spec e.2 node_.input_types hnd1 hnd2 hdisj hpres
      obtain ⟨ns, hns, hfa⟩ := ih (fun q hq => hents' q (List.mem_cons_of_mem _ hq))
      refine ⟨{ name := e.1, typ := node_.typ, documentation := dsc,
                callable := parameterized_inputs.new_fn node_ e.2,
                input_types := m', tags := node_.tags } :: ns, ?_, ?_⟩
      · rw [parameterized_inputs.expandGo, hdsc, hmok, hns]
        rfl
      · refine List.Forall₂.cons ⟨rfl, ?_, ?_⟩ hfa
        · intro pr hpr
          constructor
          · rw [hdst pr hpr]
            exact Option.ne_none_iff_isSome.mpr (hpres pr hpr)
          · exact hsrc pr hpr
        · intro kw hkw
          obtain ⟨kw', hkok, _, hkdst, _⟩ :=
            dmove_spec (e.2.map (fun pr => (pr.2, pr.1))) kw
              (by rw [map_swap_fst]; exact hnd2)
              (by rw [map_swap_snd]; exact hnd1)
              (by
                intro p hp' q hq'
                obtain ⟨pr, hprm, rfl⟩ := List.mem_map.mp hp'
                obtain ⟨qr, hqrm, rfl⟩ := List.mem_map.mp hq'
                exact Ne.symm (hdisj qr hqrm pr hprm))
              (by
                intro p hp'
                obtain ⟨pr, hprm, rfl⟩ := List.mem_map.mp hp'
                exact hkw pr hprm)
          refine ⟨kw', ?_, ?_⟩
          · show parameterized_inputs.new_fn node_ e.2 kw = node_.callable kw'
            rw [parameterized_inputs.new_fn, hkok]
          · intro pr hpr
            exact hkdst (pr.2, pr.1) (List.mem_map_of_mem _ hpr)

/-- Witness for the amended claim C3: a concrete singular substitution
`a -> c` and a concrete plural substitution over `nodeAB`. -/
theorem claim_C3_witness :
    (∃ ns, (parametrized_input.mk "a" [("c", ("n1", "d1"))]).expand_node nodeAB =
        Except.ok ns ∧
      List.Forall₂ (fun (nd : Node) (e : String × (String × String)) =>
        nd.name = e.2.1 ∧ nd.documentation = e.2.2 ∧
        dget nd.input_types e.1 ≠ Option.none ∧
        dget nd.input_types "a" = Option.none ∧
        (∀ (kw : Kwargs) (v : PyObj), dget kw e.1 = some v →
          ∃ kw', dmove kw [(e.1, "a")] = Except.ok kw' ∧
            nd.callable kw = nodeAB.callable kw' ∧
            dget kw' "a" = some v))
        ns [("c", ("n1", "d1"))]) ∧
    (∃ ns, (parameterized_inputs.mk [("out1", [("a", "c")])]).expand_node nodeAB =
        Except.ok ns ∧
      List.Forall₂ (fun (nd : Node) (e : String × List (String × String)) =>
        nd.name = e.1 ∧
        (∀ pr ∈ e.2, dget nd.input_types pr.2 ≠ Option.none ∧
          dget nd.input_types pr.1 = Option.none) ∧
        (∀ kw : Kwargs, (∀ pr ∈ e.2, (dget kw pr.2).isSome = true) →
          ∃ kw', nd.callable kw = nodeAB.callable kw' ∧
            ∀ pr ∈ e.2, dget kw' pr.1 = dget kw pr.2))
        ns [("out1", [("a", "c")])]) :=
  ⟨claim_C3_amended_dependency_substitution.1
      (parametrized_input.mk "a" [("c", ("n1", "d1"))]) nodeAB (by decide) (by decide),
   claim_C3_amended_dependency_substitution.2
      (parameterized_inputs.mk [("out1", [("a", "c")])]) nodeAB
      (by
        intro e he
        rw [List.mem_singleton] at he
        subst he
        exact ⟨by decide, by decide, by decide, by decide, ⟨"base docs", rfl⟩⟩)⟩

/-! ### Claim C5 -/

/-- Claim C5 failing input, evaluated: `extract_columns(('a','docs'),
fill_with=0)` over a function producing a dataframe without column `a`.
The wrapped base node fills the *tuple* `('a','docs')` in as a literal
dataframe key (because `df_generator` iterates the raw column specs), so the
per-column extractor for `a` — fed exactly the base node's output — still
raises the missing-column invalid-decorator error even though a fill default
is configured; its message names the missing column and the columns actually
present.  This contradicts the claim's "extraction succeeds" for
tuple-specified columns. -/
theorem claim_C5_fill_with_tuple_column_divergence :
    ((extract_columns.mk [ColKey.pair "a" "docs"] (some (PyVal.pyInt 0))).expand_node
        nodeFrame).length = 2 ∧
    (((extract_columns.mk [ColKey.pair "a" "docs"] (some (PyVal.pyInt 0))).expand_node
        nodeFrame).get ⟨0, by decide⟩).callable [] =
      Except.ok (PyObj.frame [(ColKey.pair "a" "docs", PyVal.pyInt 0)]) ∧
    (((extract_columns.mk [ColKey.pair "a" "docs"] (some (PyVal.pyInt 0))).expand_node
        nodeFrame).get ⟨1, by decide⟩).callable
        [("base_df", PyObj.frame [(ColKey.pair "a" "docs", PyVal.pyInt 0)])] =
      Except.error (PyError.invalidDecorator
        (extract_columns.no_such_column_msg "a" "base_df"
          [(ColKey.pair "a" "docs", PyVal.pyInt 0)])) :=
  ⟨rfl, rfl, rfl⟩

/-! ### Claim C7 -/

/-- Counterexample for claim C7: a function whose declared return type is
`typing.Dict[str, str]` — not a dataframe — decorated with
`extract_columns` fails validation with a `TypeError` raised by
`issubclass` (subscripted generics are not classes), not with the
invalid-decorator error the claim requires. -/
theorem claim_C7_counterexample :
    extract_columns.validate
      { name := "f", doc := Option.none, params := [],
        retAnn := PyType.genericDict PyType.pystr PyType.pystr, body := [Stmt.pass] } =
      Except.error (PyError.typeError "issubclass() arg 1 must be a class") :=
  rfl

theorem fieldErrors_ne_nil (l : List (String × FieldAnn))
    (h : ∃ e ∈ l, ∃ v, e.2 = FieldAnn.notAType v) :
    extract_fields.fieldErrors l ≠ [] := by
  induction l with
  | nil =>
    obtain ⟨e, hem, _⟩ := h
    cases hem
  | cons e rest ih =>
    obtain ⟨q, hqm, v, hqv⟩ := h
    rcases List.mem_cons.mp hqm with rfl | htail
    · rw [extract_fields.fieldErrors, hqv]
      intro hc
      cases hc
    · rw [extract_fields.fieldErrors]
      cases he : e.2 with
      | ty t => exact ih ⟨q, htail, v, hqv⟩
      | notAType w =>
        intro hc
        cases hc

/-- Claim C7 as amended: a non-record return annotation fails extraction
validation before any node is generated — with the invalid-decorator error
when the annotation is an actual class (`extract_columns`), and always for
`extract_fields` (both for a non-dict return annotation and for a field
declared without an explicit type); but when the annotation is a
subscripted generic, `extract_columns.validate` raises `TypeError`
instead. -/
theorem claim_C7_amended_extraction_validation :
    (∀ fn : PyFunction, fn.retAnn.isClass = true →
      subclassB fn.retAnn PyType.dataframe = false →
      extract_columns.validate fn = Except.error (PyError.invalidDecorator
        ("For extracting columns, output type must be pandas dataframe, not: " ++
         pyTypeRepr fn.retAnn))) ∧
    (∀ fn : PyFunction, isDictLike fn.retAnn = false →
      extract_fields.validate fn = Except.error (PyError.invalidDecorator
        ("For extracting fields, output type must be a dict or typing.Dict, not: " ++
         pyTypeRepr fn.retAnn))) ∧
    (∀ (fields : List (String × FieldAnn)) (fill : Option PyVal),
      (∃ e ∈ fields, ∃ v, e.2 = FieldAnn.notAType v) →
      ∃ m, extract_fields.init fields fill = Except.error (PyError.invalidDecorator m)) := by
  refine ⟨?_, ?_, ?_⟩
  · intro fn hclass hsub
    have h1 : ¬ (fn.retAnn.isClass = false) := by
      rw [hclass]
      decide
    have hiss : issubclass fn.retAnn PyType.dataframe = Except.ok false := by
      rw [issubclass, if_neg h1, if_neg (by decide : ¬ (PyType.dataframe.isClass = false)), hsub]
    rw [extract_columns.validate, hiss]
    rfl
  · intro fn hnd
    rw [extract_fields.validate]
    cases hr : fn.retAnn with
    | genericDict k v =>
      rw [hr] at hnd
      simp [isDictLike] at hnd
    | pydict =>
      rw [hr] at hnd
      simp [isDictLike] at hnd
    | dataframe => rfl
    | series => rfl
    | pyint => rfl
    | pystr => rfl
    | pyfloat => rfl
    | sigEmpty => rfl
    | genericList t => rfl
    | classNamed nm base => rfl
  · intro fields fill hex
    have hne : extract_fields.fieldErrors fields ≠ [] := fieldErrors_ne_nil fields hex
    have hmem : fields.isEmpty = false := by
      obtain ⟨e, hem, _⟩ := hex
      cases fields with
      | nil => cases hem
      | cons q rest => rfl
    have hempty : (extract_fields.fieldErrors fields).isEmpty = false := by
      cases hf : extract_fields.fieldErrors fields with
      | nil => exact absurd hf hne
      | cons x xs => rfl
    rw [extract_fields.init, hmem, hempty]
    exact ⟨_, rfl⟩

/-- Witness for the amended claim C7 at concrete inputs: an `int`-returning
function under `extract_columns`, a `Series`-returning function under
`extract_fields`, and a field map carrying a non-type annotation. -/
theorem claim_C7_witness :
    extract_columns.validate
      { name := "g", doc := Option.none, params := [],
        retAnn := PyType.pyint, body := [Stmt.pass] } =
      Except.error (PyError.invalidDecorator
        ("For extracting columns, output type must be pandas dataframe, not: " ++
         pyTypeRepr PyType.pyint)) ∧
    extract_fields.validate
      { name := "h", doc := Option.none, params := [],
        retAnn := PyType.series, body := [Stmt.pass] } =
      Except.error (PyError.invalidDecorator
        ("For extracting fields, output type must be a dict or typing.Dict, not: " ++
         pyTypeRepr PyType.series)) ∧
    (∃ m, extract_fields.init [("f1", FieldAnn.notAType PyVal.pyNone)] Option.none =
      Except.error (PyError.invalidDecorator m)) :=
  ⟨claim_C7_amended_extraction_validation.1
      { name := "g", doc := Option.none, params := [],
        retAnn := PyType.pyint, body := [Stmt.pass] } (by decide) (by decide),
   claim_C7_amended_extraction_validation.2.1
      { name := "h", doc := Option.none, params := [],
        retAnn := PyType.series, body := [Stmt.pass] } (by decide),
   claim_C7_amended_extraction_validation.2.2 [("f1", FieldAnn.notAType PyVal.pyNone)]
      Option.none ⟨("f1", FieldAnn.notAType PyVal.pyNone), List.mem_singleton_self _,
        PyVal.pyNone, rfl⟩⟩

/-! ### Claim C8 -/

/-- Counterexample for claim C8: `parameterized_inputs()` with an empty
parametrization raises a `ValueError`, not the single
`InvalidDecoratorException` kind the claim asserts for every validation
failure. -/
theorem claim_C8_counterexample :
    parameterized_inputs.init [] = Except.error
      (PyError.valueError "Cannot pass empty/None dictionary to parameterized_inputs") ∧
    (PyError.valueError
      "Cannot pass empty/None dictionary to parameterized_inputs").isInvalidDecoratorKind =
      false :=
  ⟨rfl, rfl⟩

theorem postFormatChecks_error_kind (pz : parameterized_inputs) (fn : PyFunction)
    (e : PyError) (h : parameterized_inputs.postFormatChecks pz fn = Except.error e) :
    e.isInvalidDecoratorKind = true := by
  rw [parameterized_inputs.postFormatChecks] at h
  by_cases h1 : (fn.params.map PyParam.name).contains parameterized_inputs.RESERVED_KWARG = true
  · rw [if_pos h1] at h
    cases h
    rfl
  · rw [if_neg h1] at h
    by_cases h2 : (parameterized_inputs.missingParams pz fn).isEmpty = true
    · rw [if_pos h2] at h
      cases h
    · rw [if_neg h2] at h
      cases h
      rfl

/-- Claim C8 as amended: the validation entry points raise only the
invalid-decorator kind, except that (i) the empty-parameterization checks of
`parameterized_inputs.__init__` raise `ValueError`, (ii)
`parameterized_inputs.validate` converts only docstring-template `KeyError`s
and can propagate the other formatting failure kinds (AttributeError /
ValueError / IndexError / TypeError), (iii) `does`' single-parameter check
fails with an unpacking `ValueError` on a zero-parameter replacement, and
(iv) the `issubclass`-based return-type checks raise `TypeError` when an
annotation is not a class (so those clauses assume class annotations). -/
theorem claim_C8_amended_error_kinds :
    (∀ (fn : PyFunction) (e : PyError),
      config.validate fn = Except.error e → e.isInvalidDecoratorKind = true) ∧
    (∀ (t : tag) (e : PyError),
      tag.validate t = Except.error e → e.isInvalidDecoratorKind = true) ∧
    (∀ (p : parametrized) (fn : PyFunction) (e : PyError),
      p.validate fn = Except.error e → e.isInvalidDecoratorKind = true) ∧
    (∀ (p : parametrized_input) (fn : PyFunction) (e : PyError),
      p.validate fn = Except.error e → e.isInvalidDecoratorKind = true) ∧
    (∀ (pz : parameterized_inputs) (fn : PyFunction) (e : PyError),
      pz.validate fn = Except.error e →
      e.isInvalidDecoratorKind = true ∨ (∃ m, e = PyError.attributeError m) ∨
      (∃ m, e = PyError.valueError m) ∨ (∃ m, e = PyError.indexError m) ∨
      (∃ m, e = PyError.typeError m)) ∧
    (∀ (l : List (String × List (String × String))) (e : PyError),
      parameterized_inputs.init l = Except.error e → ∃ m, e = PyError.valueError m) ∧
    (∀ l : List (String × List (String × String)), l ≠ [] → (∀ q ∈ l, q.2 ≠ []) →
      ∃ z, parameterized_inputs.init l = Except.ok z) ∧
    (∀ (cols : List ColKey) (fill : Option PyVal) (e : PyError),
      extract_columns.init cols fill = Except.error e → e.isInvalidDecoratorKind = true) ∧
    (∀ (fn : PyFunction) (e : PyError), fn.retAnn.isClass = true →
      extract_columns.validate fn = Except.error e → e.isInvalidDecoratorKind = true) ∧
    (∀ (fields : List (String × FieldAnn)) (fill : Option PyVal) (e : PyError),
      extract_fields.init fields fill = Except.error e → e.isInvalidDecoratorKind = true) ∧
    (∀ (fn : PyFunction) (e : PyError),
      extract_fields.validate fn = Except.error e → e.isInvalidDecoratorKind = true) ∧
    (∀ (fn : PyFunction) (e : PyError),
      ensure_function_empty fn = Except.error e → e.isInvalidDecoratorKind = true) ∧
    (∀ (d : does) (fn : PyFunction) (e : PyError),
      d.replacing_function.params ≠ [] → fn.retAnn.isClass = true →
      d.replacing_function.retAnn.isClass = true →
      does.validate d fn = Except.error e → e.isInvalidDecoratorKind = true) ∧
    (∀ (fn : PyFunction) (e : PyError), fn.retAnn.isClass = true →
      dynamic_transform.validate fn = Except.error e → e.isInvalidDecoratorKind = true) := by
  have hensure : ∀ (fn : PyFunction) (e : PyError),
      ensure_function_empty fn = Except.error e → e.isInvalidDecoratorKind = true := by
    intro fn e h
    rw [ensure_function_empty] at h
    by_cases hc : (coCode fn == coCode emptyFunction
        || coCode fn == coCode emptyFunctionWithDocstring) = true
    · rw [if_pos hc] at h
      cases h
    · rw [if_neg hc] at h
      cases h
      rfl
  have hsubcheck : ∀ (a b : PyType) (e : PyError), a.isClass = true → b.isClass = true →
      ∀ msg : String,
      (do
        let r ← issubclass a b
        if r then Except.ok ()
        else Except.error (PyError.invalidDecorator msg)) = Except.error e →
      e.isInvalidDecoratorKind = true := by
    intro a b e ha hb msg h
    have h1 : ¬ (a.isClass = false) := by
      rw [ha]
      decide
    have h2 : ¬ (b.isClass = false) := by
      rw [hb]
      decide
    rw [issubclass, if_neg h1, if_neg h2] at h
    by_cases hs : subclassB a b = true
    · rw [hs] at h
      exact Except.noConfusion h
    · rw [Bool.not_eq_true] at hs
      rw [hs] at h
      cases h
      rfl
  refine ⟨?_, ?_, ?_, ?_, ?_, ?_, ?_, ?_, ?_, ?_, ?_, hensure, ?_, ?_⟩
  · intro fn e h
    rw [config.validate] at h
    by_cases hb : endsWithDunder fn.name = true
    · rw [if_pos hb] at h
      cases h
      rfl
    · rw [if_neg hb] at h
      cases h
  · intro t e h
    rw [tag.validate] at h
    by_cases hb : (tag.bad_tags t).isEmpty = true
    · rw [if_pos hb] at h
      cases h
    · rw [if_neg hb] at h
      cases h
      rfl
  · intro p fn e h
    rw [parametrized.validate] at h
    by_cases hb : (fn.params.map PyParam.name).contains p.parameter = true
    · rw [if_pos hb] at h
      cases h
    · rw [if_neg hb] at h
      cases h
      rfl
  · intro p fn e h
    rw [parametrized_input.validate] at h
    by_cases hb : (fn.params.map PyParam.name).contains p.parameter = true
    · rw [if_pos hb] at h
      cases h
    · rw [if_neg hb] at h
      cases h
      rfl
  · intro pz fn e h
    rw [parameterized_inputs.validate] at h
    cases hf : parameterized_inputs.formatCheckGo fn.doc pz.parametrization with
    | ok u =>
      cases u
      rw [hf] at h
      have h' : parameterized_inputs.postFormatChecks pz fn = Except.error e := h
      exact Or.inl (postFormatChecks_error_kind pz fn e h')
    | error e' =>
      rw [hf] at h
      have hkinds := formatCheckGo_error_kinds fn.doc pz.parametrization e' hf
      cases e' with
      | keyError m =>
        have h' : (Except.error (PyError.invalidDecorator
            ("Function docstring templating is incorrect. Please fix up the docstring " ++
             fn.name ++ ".")) : Except PyError Unit).bind
            (fun _ => parameterized_inputs.postFormatChecks pz fn) = Except.error e := h
        cases h'
        exact Or.inl rfl
      | invalidDecorator m =>
        cases h
        exact Or.inl rfl
      | valueError m =>
        cases h
        exact Or.inr (Or.inr (Or.inl ⟨m, rfl⟩))
      | typeError m =>
        cases h
        exact Or.inr (Or.inr (Or.inr (Or.inr ⟨m, rfl⟩)))
      | indexError m =>
        cases h
        exact Or.inr (Or.inr (Or.inr (Or.inl ⟨m, rfl⟩)))
      | attributeError m =>
        cases h
        exact Or.inr (Or.inl ⟨m, rfl⟩)
  · intro l e h
    rw [parameterized_inputs.init] at h
    by_cases hb : l.isEmpty = true
    · rw [if_pos hb] at h
      cases h
      exact ⟨_, rfl⟩
    · rw [if_neg hb] at h
      cases hfind : l.find? (fun q => q.2.isEmpty) with
      | some q =>
        rw [hfind] at h
        cases h
        exact ⟨_, rfl⟩
      | none =>
        rw [hfind] at h
        cases h
  · intro l hne hmaps
    rw [parameterized_inputs.init]
    have hb : l.isEmpty = false := by
      cases l with
      | nil => exact absurd rfl hne
      | cons q rest => rfl
    rw [hb]
    have hfind : l.find? (fun q => q.2.isEmpty) = Option.none := by
      rw [List.find?_eq_none]
      intro q hq
      have := hmaps q hq
      cases hq2 : q.2 with
      | nil => exact absurd hq2 this
      | cons x xs => simp [hq2]
    rw [hfind]
    exact ⟨parameterized_inputs.mk l, rfl⟩
  · intro cols fill e h
    rw [extract_columns.init] at h
    by_cases hb : cols.isEmpty = true
    · rw [if_pos hb] at h
      cases h
      rfl
    · rw [if_neg hb] at h
      cases h
  · intro fn e hcl h
    rw [extract_columns.validate] at h
    exact hsubcheck fn.retAnn PyType.dataframe e hcl (by decide) _ h
  · intro fields fill e h
    rw [extract_fields.init] at h
    by_cases hb : fields.isEmpty = true
    · rw [if_pos hb] at h
      cases h
      rfl
    · rw [if_neg hb] at h
      by_cases hb2 : (extract_fields.fieldErrors fields).isEmpty = true
      · rw [if_pos hb2] at h
        cases h
      · rw [if_neg hb2] at h
        cases h
        rfl
  · intro fn e h
    rw [extract_fields.validate] at h
    cases hr : fn.retAnn with
    | genericDict k v =>
      rw [hr] at h
      cases h
    | pydict =>
      rw [hr] at h
      cases h
    | dataframe => rw [hr] at h; cases h; rfl
    | series => rw [hr] at h; cases h; rfl
    | pyint => rw [hr] at h; cases h; rfl
    | pystr => rw [hr] at h; cases h; rfl
    | pyfloat => rw [hr] at h; cases h; rfl
    | sigEmpty => rw [hr] at h; cases h; rfl
    | genericList t => rw [hr] at h; cases h; rfl
    | classNamed nm base => rw [hr] at h; cases h; rfl
  · intro d fn e hpar hc1 hc2 h
    rw [does.validate] at h
    cases he : ensure_function_empty fn with
    | error e1 =>
      rw [he] at h
      cases h
      exact hensure fn _ he
    | ok u =>
      cases u
      rw [he] at h
      cases hk : does.ensure_function_kwarg_only d.replacing_function with
      | error e2 =>
        rw [hk] at h
        cases h
        rw [does.ensure_function_kwarg_only] at hk
        by_cases hl : d.replacing_function.params.length > 1
        · rw [if_pos hl] at hk
          cases hk
          rfl
        · rw [if_neg hl] at hk
          cases hp : d.replacing_function.params with
          | nil => exact absurd hp hpar
          | cons p tail =>
            rw [hp] at hk
            have hk' : (if p.kind = ParamKind.varKeyword then Except.ok ()
                else Except.error (PyError.invalidDecorator
                  "Must have only one parameter, and that parameter must be a **kwargs parameter.")) =
                Except.error e := hk
            by_cases hkind : p.kind = ParamKind.varKeyword
            · rw [if_pos hkind] at hk'
              cases hk'
            · rw [if_neg hkind] at hk'
              cases hk'
              rfl
      | ok u2 =>
        cases u2
        rw [hk] at h
        rw [does.ensure_output_types_match] at h
        exact hsubcheck d.replacing_function.retAnn fn.retAnn e hc2 hc1 _ h
  · intro fn e hcl h
    rw [dynamic_transform.validate] at h
    cases he : ensure_function_empty fn with
    | error e1 =>
      rw [he] at h
      cases h
      exact hensure fn _ he
    | ok u =>
      cases u
      rw [he] at h
      have h1 : ¬ (fn.retAnn.isClass = false) := by
        rw [hcl]
        decide
      rw [issubclass, if_neg h1,
        if_neg (by decide : ¬ (PyType.series.isClass = false))] at h
      by_cases hs : subclassB fn.retAnn PyType.series = true
      · rw [hs] at h
        have h' : (if fn.params.length > 0 then Except.error (PyError.invalidDecorator
            "Models must have no parameters -- all are passed in through the config")
            else Except.ok ()) = Except.error e := h
        by_cases hl : fn.params.length > 0
        · rw [if_pos hl] at h'
          cases h'
          rfl
        · rw [if_neg hl] at h'
          cases h'
      · rw [Bool.not_eq_true] at hs
        rw [hs] at h
        have h' : (Except.error (PyError.invalidDecorator
            "Models must declare their return type as a pandas Series") :
            Except PyError Unit) = Except.error e := h
        cases h'
        rfl

/-- Witness for the amended claim C8: concrete validation failures landing
in the stated kinds, and a concrete successful construction. -/
theorem claim_C8_witness :
    ((PyError.invalidDecorator
      "Config will always use the portion of the function name before the last __.").isInvalidDecoratorKind = true) ∧
    (∃ z, parameterized_inputs.init [("out1", [("a", "c")])] = Except.ok z) :=
  ⟨claim_C8_amended_error_kinds.1
      { name := "bad__", doc := Option.none, params := [], retAnn := PyType.series,
        body := [Stmt.pass] } _ rfl,
   claim_C8_amended_error_kinds.2.2.2.2.2.2.1 [("out1", [("a", "c")])]
      (by decide) (by decide)⟩

/-! ### Claim C10 -/

/-- Claim C10 failing input, evaluated: resolving `fnAB` under
`config.when(name='renamed')` assigns `fn.__name__` in place (the source
even carries a `TODO -- copy function to not mutate it`), so the post-call
state of the caller's function object differs from the input: resolution is
not side-effect-free on its inputs. -/
theorem claim_C10_resolve_mutates_input :
    (((config.when (some "renamed") []).resolve fnAB []).2).name = "renamed" ∧
    fnAB.name = "fn_ab" ∧
    ((config.when (some "renamed") []).resolve fnAB []).2 ≠ fnAB :=
  ⟨rfl, rfl, by decide⟩

end Hamilton
